import Mathlib

/-!
# Verification of the batched line-geometry engine (`AcTrBatchedLine`)

Shallow embedding of `src/packages/three-renderer/src/batch/AcTrBatchedLine.ts`.
Scalars are exact rationals (the JS numbers of the source are IEEE doubles,
which are exact on the integer and dyadic inputs the claims concern); typed
arrays are modelled as total functions from ℕ, with negative-index reads
(undefined in JS) mapped to a default that is never observed on the states
the theorems constrain.
-/

namespace CadBatch

/-- Exact 3D vector; models `THREE.Vector3`. -/
structure Vec3 where
  x : ℚ
  y : ℚ
  z : ℚ
deriving DecidableEq

/-- Non-empty axis-aligned box; models `THREE.Box3`.  The empty box produced
by `makeEmpty` (infinite bounds) is represented as `none` where an
`Option Box3` is used. -/
structure Box3 where
  min : Vec3
  max : Vec3
deriving DecidableEq

def vmin (a b : Vec3) : Vec3 := ⟨Min.min a.x b.x, Min.min a.y b.y, Min.min a.z b.z⟩

def vmax (a b : Vec3) : Vec3 := ⟨Max.max a.x b.x, Max.max a.y b.y, Max.max a.z b.z⟩

/-- `Box3.expandByPoint`, with `none` playing the role of the empty box. -/
def expandByPoint : Option Box3 → Vec3 → Option Box3
  | none, p => some ⟨p, p⟩
  | some bx, p => some ⟨vmin bx.min p, vmax bx.max p⟩

/-- Bounding sphere with the squared radius stored exactly.  THREE stores
`radius = Math.sqrt maxRadiusSq`; for nonnegative radii two spheres are equal
iff their centers and squared radii are, so `radiusSq` carries the same
information without leaving ℚ. -/
structure SphereQ where
  center : Vec3
  radiusSq : ℚ
deriving DecidableEq

/-- The vertex-attribute names occurring in the claims; stands in for the JS
attribute-name strings of the source. -/
inductive AttrName where
  | position
  | color
deriving DecidableEq

/-- Association-list lookup on attribute names (models JS property lookup on
the `attributes` object). -/
def alookup {β : Type} : List (AttrName × β) → AttrName → Option β
  | [], _ => none
  | (k, v) :: rest, nm => if k = nm then some v else alookup rest nm

/-- Read a JS typed array at a possibly negative index.  A negative read is
`undefined` in JS; it never happens on the states the theorems constrain and
is mapped to the default `d`. -/
def readAt {α : Type} (d : α) (a : ℕ → α) (i : ℤ) : α :=
  if 0 ≤ i then a i.toNat else d

/-- `TypedArray.prototype.copyWithin target start stop` (memmove semantics:
the source values are the pre-call contents). -/
def copyWithinA {α : Type} (d : α) (a : ℕ → α) (target start stop : ℤ) : ℕ → α :=
  fun n =>
    if target ≤ (n : ℤ) ∧ (n : ℤ) < target + (stop - start) then
      readAt d a (start + ((n : ℤ) - target))
    else a n

/-- The remap loop of `optimize`: `for (i = lo; i < hi; i++) arr[i] += delta`. -/
def addInRange (a : ℕ → ℤ) (lo hi delta : ℤ) : ℕ → ℤ :=
  fun n => if lo ≤ (n : ℤ) ∧ (n : ℤ) < hi then a n + delta else a n

/-- One vertex attribute of an input geometry; models `THREE.BufferAttribute`
(`count` items of `itemSize` components stored flat in `data`). -/
structure BufferAttr where
  itemSize : ℕ
  normalized : Bool
  count : ℕ
  data : ℕ → ℚ

/-- The index attribute of an input geometry. -/
structure IndexAttr where
  count : ℕ
  data : ℕ → ℤ

/-- An input geometry payload; models `THREE.BufferGeometry` as consumed by
the batch. -/
structure Geometry where
  attributes : List (AttrName × BufferAttr)
  index : Option IndexAttr
  boundingBox : Option Box3
  boundingSphere : Option SphereQ

/-- One shared vertex-attribute buffer of the batch (capacity-sized array plus
the schema data `itemSize`/`normalized`). -/
structure BatchAttr where
  itemSize : ℕ
  normalized : Bool
  data : ℕ → ℚ

/-- One entry of the geometry region table; a faithful copy of the
`AcTrBatchedGeometryInfo` record fields used by `AcTrBatchedLine` (the
`-1` initialisation sentinels of the source are kept). -/
structure GeoInfo where
  vertexStart : ℤ
  vertexCount : ℤ
  reservedVertexCount : ℤ
  indexStart : ℤ
  indexCount : ℤ
  reservedIndexCount : ℤ
  start : ℤ
  count : ℤ
  boundingBox : Option Box3
  boundingSphere : Option SphereQ
  active : Bool
  visible : Bool
  bboxIntersectionCheck : Bool
deriving DecidableEq

/-- Placeholder `GeoInfo` used only as the default of out-of-range `getD`
reads inside decidable statements; never an actual table entry there. -/
def dummyInfo : GeoInfo :=
  ⟨-1, -1, -1, -1, -1, -1, -1, -1, none, none, false, false, false⟩

/-- The JS exceptions the methods of `AcTrBatchedLine` can raise, one
constructor per throw site (plus the two implicit JS error kinds). -/
inductive JsErr where
  /-- "All geometries must consistently have index." -/
  | indexConsistency
  /-- "Added geometry missing (attribute). All geometries must have
  consistent attributes." -/
  | missingAttribute (name : AttrName)
  /-- "All attributes must have a consistent itemSize and normalized value." -/
  | attrFormat
  /-- "Reserved space request exceeds the maximum buffer size." -/
  | reservedExceedsMax
  /-- "Reserved space not large enough for provided geometry." -/
  | reservedNotLargeEnough
  /-- "Maximum geometry count reached." -/
  | maxGeometryCount
  /-- "Invalid geometryId. Geometry is either out of range or has been
  deleted." -/
  | invalidGeometryId
  /-- A JS `TypeError` from a property access on `undefined`. -/
  | typeError
  /-- A JS `ReferenceError` from an undeclared identifier. -/
  | referenceError
deriving DecidableEq

/-- The whole mutable state of one `AcTrBatchedLine` instance. -/
structure Batch where
  maxVertexCount : ℚ
  maxIndexCount : ℚ
  geometryInfo : List GeoInfo
  availableGeometryIds : List ℕ
  nextIndexStart : ℤ
  nextVertexStart : ℤ
  geometryCount : ℕ
  geometryInitialized : Bool
  attrs : List (AttrName × BatchAttr)
  indexData : Option (ℕ → ℤ)
  drawRange : Option (ℤ × ℤ)

/-- The constructor `new AcTrBatchedLine(maxVertexCount, maxIndexCount)`. -/
def mkBatch (maxVertexCount maxIndexCount : ℚ) : Batch :=
  { maxVertexCount := maxVertexCount
    maxIndexCount := maxIndexCount
    geometryInfo := []
    availableGeometryIds := []
    nextIndexStart := 0
    nextVertexStart := 0
    geometryCount := 0
    geometryInitialized := false
    attrs := []
    indexData := none
    drawRange := none }

/-- Reads item `iv` of a flat attribute as a `THREE.Vector3`
(`Vector3.fromBufferAttribute` semantics: components `iv*itemSize + 0,1,2`). -/
def vecAt (itemSize : ℕ) (data : ℕ → ℚ) (iv : ℤ) : Vec3 :=
  ⟨readAt 0 data (iv * itemSize), readAt 0 data (iv * itemSize + 1),
   readAt 0 data (iv * itemSize + 2)⟩

/-- `BufferGeometry.computeBoundingBox`: box of all `position` items.
`none` stands both for the missing attribute and for the empty box of a
zero-vertex attribute; no claim involves either case. -/
def geomBoundingBox (g : Geometry) : Option Box3 :=
  match alookup g.attributes AttrName.position with
  | none => none
  | some p =>
    (List.range p.count).foldl (fun bx k => expandByPoint bx (vecAt p.itemSize p.data k)) none

def boxCenter (bx : Box3) : Vec3 :=
  ⟨(bx.min.x + bx.max.x) / 2, (bx.min.y + bx.max.y) / 2, (bx.min.z + bx.max.z) / 2⟩

def distSq (a b : Vec3) : ℚ :=
  (a.x - b.x) ^ 2 + (a.y - b.y) ^ 2 + (a.z - b.z) ^ 2

/-- `BufferGeometry.computeBoundingSphere`: center is the bounding-box
center, squared radius the maximal squared distance from it to a vertex. -/
def geomBoundingSphere (g : Geometry) : Option SphereQ :=
  match alookup g.attributes AttrName.position, geomBoundingBox g with
  | some p, some bx =>
    let c := boxCenter bx
    some ⟨c, (List.range p.count).foldl
      (fun m k => Max.max m (distSq c (vecAt p.itemSize p.data k))) 0⟩
  | _, _ => none

/-- `_initializeGeometry`, lines 78-110: on the first insertion, allocate the
shared buffers after the reference geometry's schema (fresh JS typed arrays
are zero-filled). -/
def initGeometry (b : Batch) (g : Geometry) : Batch :=
  if b.geometryInitialized then b
  else
    { b with
      attrs := g.attributes.map (fun p =>
        (p.1, { itemSize := p.2.itemSize, normalized := p.2.normalized,
                data := fun _ => (0 : ℚ) })),
      indexData := if g.index.isSome then some (fun _ => (0 : ℤ)) else none,
      geometryInitialized := true }

/-- The attribute loop of `_validateGeometry`, iterating the batch
attributes. -/
def validateAttrs (g : Geometry) : List (AttrName × BatchAttr) → Except JsErr Unit
  | [] => Except.ok ()
  | (nm, a) :: rest =>
    match alookup g.attributes nm with
    | none => Except.error (JsErr.missingAttribute nm)
    | some s =>
      if s.itemSize ≠ a.itemSize ∨ s.normalized ≠ a.normalized then Except.error JsErr.attrFormat
      else validateAttrs g rest

/-- `_validateGeometry`, lines 113-140. -/
def validateGeometry (b : Batch) (g : Geometry) : Except JsErr Unit :=
  if g.index.isSome ≠ b.indexData.isSome then Except.error JsErr.indexConsistency
  else validateAttrs g b.attrs

/-- `setGeometrySize`, lines 666-693: install the grown capacities and
reallocate the buffers.  The data copy uses the helper `copyArrayContents`,
which lives in `AcTrBatchedGeometryInfo` and is not among the source files
here; Modelled from the spec: "Growth always reallocates and copies the
*entire* previous contents" — under the unbounded-array model that copy
leaves the data functions unchanged. -/
def setGeometrySize (b : Batch) (maxVertexCount maxIndexCount : ℚ) : Batch :=
  { b with maxVertexCount := maxVertexCount, maxIndexCount := maxIndexCount }

/-- The local `newMaxIndexCount` of `_resizeSpaceIfNeeded` (lines 145-150):
grown capacity `(old + incoming index count) * 1.5` when the unused index
tail (`maxIndexCount - nextIndexStart`) is too small. -/
def newMaxIndexOf (b : Batch) (g : Geometry) : ℚ :=
  match g.index with
  | some idx =>
    if b.maxIndexCount - (b.nextIndexStart : ℚ) < (idx.count : ℚ) then
      (b.maxIndexCount + (idx.count : ℚ)) * (3 / 2)
    else b.maxIndexCount
  | none => b.maxIndexCount

/-- The local `newMaxVertexCount` of `_resizeSpaceIfNeeded` (lines 152-159). -/
def newMaxVertexOf (b : Batch) (g : Geometry) : ℚ :=
  match alookup g.attributes AttrName.position with
  | some p =>
    if b.maxVertexCount - (b.nextVertexStart : ℚ) < (p.count : ℚ) then
      (b.maxVertexCount + (p.count : ℚ)) * (3 / 2)
    else b.maxVertexCount
  | none => b.maxVertexCount

/-- `_resizeSpaceIfNeeded`, lines 142-167.  `unusedIndexCount` and
`unusedVertexCount` are inlined as `max - nextStart`. -/
def resizeSpaceIfNeeded (b : Batch) (g : Geometry) : Batch :=
  if b.maxIndexCount < newMaxIndexOf b g ∨ b.maxVertexCount < newMaxVertexOf b g then
    setGeometrySize b (newMaxVertexOf b g) (newMaxIndexOf b g)
  else b

/-- Modelled from the spec: the helper `copyAttributeData` of
`AcTrBatchedGeometryInfo` (imported by the source but not among the source
files here) — "Copies vertex/index data into the newly reserved range":
writes the `src.count` vertices of `src` into `dst` starting at vertex
offset `offset`. -/
def copyAttributeData (src : BufferAttr) (dst : ℕ → ℚ) (offset : ℤ) : ℕ → ℚ :=
  fun n =>
    if offset * src.itemSize ≤ (n : ℤ) ∧ (n : ℤ) < (offset + src.count) * src.itemSize then
      src.data ((n : ℤ) - offset * src.itemSize).toNat
    else dst n

/-- The zero-fill loop of `setGeometryAt` (lines 400-406): all components of
vertices `[srcCount, reserved)` of the region at `vertexStart` become 0. -/
def zeroPad (dst : ℕ → ℚ) (itemSize : ℕ) (vertexStart srcCount reserved : ℤ) : ℕ → ℚ :=
  fun n =>
    if (vertexStart + srcCount) * itemSize ≤ (n : ℤ) ∧
        (n : ℤ) < (vertexStart + reserved) * itemSize then 0
    else dst n

/-- The index-copy loop of `setGeometryAt` (lines 422-424): entry
`indexStart + i` becomes `vertexStart + src[i]`. -/
def writeIndexRange (dst : ℕ → ℤ) (src : IndexAttr) (indexStart vertexStart : ℤ) : ℕ → ℤ :=
  fun n =>
    if indexStart ≤ (n : ℤ) ∧ (n : ℤ) < indexStart + src.count then
      vertexStart + src.data ((n : ℤ) - indexStart).toNat
    else dst n

/-- The index-pad loop of `setGeometryAt` (lines 427-429): entries
`[srcCount, reserved)` of the region are filled with `vertexStart`. -/
def padIndexRange (dst : ℕ → ℤ) (indexStart srcCount reserved vertexStart : ℤ) : ℕ → ℤ :=
  fun n =>
    if indexStart + srcCount ≤ (n : ℤ) ∧ (n : ℤ) < indexStart + reserved then vertexStart
    else dst n

/-- The index count the `setGeometryAt` reserved-space check reads from the
payload (0 when the payload has no index; only read when the batch is
indexed). -/
def srcIndexCountOf (g : Geometry) : ℤ :=
  match g.index with
  | some idx => (idx.count : ℤ)
  | none => 0

/-- The attribute-copy loop body of `setGeometryAt` (lines 391-413) on one
batch attribute: copy the payload attribute over the region and zero-fill
the reserved padding. -/
def setAttrWrite (g : Geometry) (info : GeoInfo) (p : AttrName × BatchAttr) :
    AttrName × BatchAttr :=
  match alookup g.attributes p.1 with
  | some s =>
    let d := zeroPad (copyAttributeData s p.2.data info.vertexStart) s.itemSize
      info.vertexStart s.count info.reservedVertexCount
    (p.1, { p.2 with data := d })
  -- unreachable after `validateGeometry`: every batch attribute is in `g`
  | none => p

/-- The index-copy part of `setGeometryAt` (lines 416-433): absolute
(`vertexStart`-offset) indices plus `vertexStart` padding. -/
def setIndexWrite (idx : Option (ℕ → ℤ)) (g : Geometry) (info : GeoInfo) : Option (ℕ → ℤ) :=
  match idx, g.index with
  | some arr, some srcIdx =>
    some (padIndexRange (writeIndexRange arr srcIdx info.indexStart info.vertexStart)
      info.indexStart srcIdx.count info.reservedIndexCount info.vertexStart)
  | _, _ => idx

/-- The region-table update of `setGeometryAt` (lines 389, 419, 436-452):
counts, draw range and bounds of the region are refreshed from the payload;
`hasIndex` and `srcIndex` are passed as in the source. -/
def setInfoUpdate (hasIndex : Bool) (srcIndex : Option IndexAttr) (info : GeoInfo)
    (posCount : ℕ) (bb : Option Box3) (bs : Option SphereQ) : GeoInfo :=
  let info1 :=
    match srcIndex with
    | some srcIdx =>
      if hasIndex then
        { info with vertexCount := (posCount : ℤ), indexCount := (srcIdx.count : ℤ) }
      else { info with vertexCount := (posCount : ℤ) }
    | none => { info with vertexCount := (posCount : ℤ) }
  { info1 with
    start := if hasIndex then info1.indexStart else info1.vertexStart
    count := if hasIndex then info1.indexCount else info1.vertexCount
    boundingBox := bb
    boundingSphere := bs }

/-- `setGeometryAt`, lines 365-455.  The returned state keeps whatever the JS
method mutated before a throw (here: nothing — all throw sites precede the
writes). -/
def setGeometryAt (b : Batch) (geometryId : ℤ) (g : Geometry) : Batch × Except JsErr ℤ :=
  if (b.geometryCount : ℤ) ≤ geometryId then (b, Except.error JsErr.maxGeometryCount)
  else
    match validateGeometry b g with
    | Except.error e => (b, Except.error e)
    | Except.ok _ =>
      if geometryId < 0 then (b, Except.error JsErr.typeError)
      else
        match b.geometryInfo.get? geometryId.toNat with
        -- JS reads `this._geometryInfo[geometryId]` which is `undefined`
        -- when the table is shorter than `_geometryCount`
        | none => (b, Except.error JsErr.typeError)
        | some info =>
          let hasIndex := b.indexData.isSome
          if hasIndex = true ∧ info.reservedIndexCount < srcIndexCountOf g then
            (b, Except.error JsErr.reservedNotLargeEnough)
          else
            match alookup g.attributes AttrName.position with
            | none => (b, Except.error JsErr.typeError)
            | some pos =>
              if info.reservedVertexCount < (pos.count : ℤ) then
                (b, Except.error JsErr.reservedNotLargeEnough)
              else
                let bOut := { b with
                  attrs := b.attrs.map (setAttrWrite g info)
                  indexData := setIndexWrite b.indexData g info
                  geometryInfo := b.geometryInfo.set geometryId.toNat
                    (setInfoUpdate hasIndex g.index info pos.count g.boundingBox
                      g.boundingSphere) }
                (bOut, Except.ok geometryId)

/-- The bounding-volume fill of `addGeometry` (lines 272-277): compute the
payload's box and sphere when absent. -/
def fillBounds (g : Geometry) : Geometry :=
  { g with
    boundingBox :=
      match g.boundingBox with
      | none => geomBoundingBox g
      | some bx => some bx,
    boundingSphere :=
      match g.boundingSphere with
      | none => geomBoundingSphere g
      | some s => some s }

/-- The fresh region record `addGeometry` builds (lines 281-315) from the
post-resize state `b2`, the bound-filled payload `g1`, its `position`
attribute and the two reservation arguments. -/
def addInfo0 (b2 : Batch) (g1 : Geometry) (pos : BufferAttr)
    (reservedVertexCount reservedIndexCount : ℤ) : GeoInfo :=
  { vertexStart := b2.nextVertexStart
    vertexCount := -1
    reservedVertexCount :=
      if reservedVertexCount = -1 then (pos.count : ℤ) else reservedVertexCount
    indexStart := if g1.index.isSome then b2.nextIndexStart else -1
    indexCount := -1
    reservedIndexCount :=
      match g1.index with
      | some idx => if reservedIndexCount = -1 then (idx.count : ℤ) else reservedIndexCount
      | none => -1
    start := -1
    count := -1
    boundingBox := g1.boundingBox
    boundingSphere := g1.boundingSphere
    active := true
    visible := true
    bboxIntersectionCheck := false }

/-- The reserved-space overflow check of `addGeometry` (lines 317-327). -/
def reservedExceeds (b2 : Batch) (info0 : GeoInfo) : Prop :=
  (info0.indexStart ≠ -1 ∧
    b2.maxIndexCount < ((info0.indexStart + info0.reservedIndexCount : ℤ) : ℚ)) ∨
  b2.maxVertexCount < ((info0.vertexStart + info0.reservedVertexCount : ℤ) : ℚ)

instance (b2 : Batch) (info0 : GeoInfo) : Decidable (reservedExceeds b2 info0) := by
  unfold reservedExceeds
  infer_instance

/-- `addGeometry`, lines 264-352 (the JS defaults of the two reservation
arguments are `-1`).  Returns the final state with the returned id or the
raised exception; mutations the JS method makes before a throw are kept in
the returned state. -/
def addGeometry (b : Batch) (g : Geometry) (reservedVertexCount reservedIndexCount : ℤ) :
    Batch × Except JsErr ℤ :=
  let b1 := initGeometry b g
  match validateGeometry b1 g with
  | Except.error e => (b1, Except.error e)
  | Except.ok _ =>
    let g1 := fillBounds g
    let b2 := resizeSpaceIfNeeded b1 g1
    match alookup g1.attributes AttrName.position with
    -- JS reads `geometry.getAttribute('position').count` on `undefined`
    | none => (b2, Except.error JsErr.typeError)
    | some pos =>
      let info0 := addInfo0 b2 g1 pos reservedVertexCount reservedIndexCount
      if reservedExceeds b2 info0 then
        (b2, Except.error JsErr.reservedExceedsMax)
      else
        let finish := fun (b3 : Batch) (gid : ℕ) =>
          match setGeometryAt b3 (gid : ℤ) g1 with
          | (b4, Except.error e) => (b4, Except.error e)
          | (b4, Except.ok _) =>
            ({ b4 with
                nextIndexStart := info0.indexStart + info0.reservedIndexCount,
                nextVertexStart := info0.vertexStart + info0.reservedVertexCount },
             Except.ok (gid : ℤ))
        match b2.availableGeometryIds.insertionSort (fun x y => x ≤ y) with
        -- reuse branch: the JS sorts `_availableGeometryIds` ascending with
        -- `ascIdSort` (Modelled from the spec: "selecting the lowest
        -- available id deterministically") and shifts the head
        | gid :: rest =>
          finish { b2 with availableGeometryIds := rest,
                           geometryInfo := b2.geometryInfo.set gid info0 } gid
        | [] =>
          finish { b2 with geometryCount := b2.geometryCount + 1,
                           geometryInfo := b2.geometryInfo ++ [info0] } b2.geometryCount

/-- `deleteGeometry`, lines 457-471.  `geometryId` below the range makes the
JS read `geometryInfoList[geometryId].active` on `undefined` — a TypeError. -/
def deleteGeometry (b : Batch) (geometryId : ℤ) : Batch × Except JsErr Unit :=
  if (b.geometryInfo.length : ℤ) ≤ geometryId then (b, Except.ok ())
  else if geometryId < 0 then (b, Except.error JsErr.typeError)
  else
    match b.geometryInfo.get? geometryId.toNat with
    -- unreachable: `0 ≤ geometryId < length` here
    | none => (b, Except.error JsErr.typeError)
    | some info =>
      if info.active = false then (b, Except.ok ())
      else
        ({ b with
            geometryInfo := b.geometryInfo.set geometryId.toNat
              { info with active := false, visible := false },
            availableGeometryIds := b.availableGeometryIds ++ [geometryId.toNat] },
         Except.ok ())

/-- The comparison `optimize` sorts by: ascending current `vertexStart`
(the JS comparator `a.info.vertexStart - b.info.vertexStart`; JS sort is
stable, as is `List.insertionSort`). -/
def vsLe (x y : ℕ × GeoInfo) : Prop := x.2.vertexStart ≤ y.2.vertexStart

instance : DecidableRel vsLe := fun _ _ => Int.decLe _ _

/-- The loop state of the packing loop of `optimize`: current buffers,
pending region-table updates, and the two packing cursors. -/
structure OptAcc where
  attrs : List (AttrName × BatchAttr)
  idx : Option (ℕ → ℤ)
  upds : List (ℕ × GeoInfo)
  nvs : ℤ
  nis : ℤ

/-- One iteration of the packing loop of `optimize` (lines 490-543) on the
entry `e` (table position, info).  The remap `delta` reads
`info.vertexStart` *after* the vertex move has overwritten it — this is the
source's behavior, kept faithfully. -/
def optStep (hasIndex : Bool) (acc : OptAcc) (e : ℕ × GeoInfo) : OptAcc :=
  let info0 := e.2
  let vertexCount := info0.vertexCount
  let indexCount : ℤ := if hasIndex then info0.indexCount else 0
  let attrs1 :=
    if info0.vertexStart ≠ acc.nvs then
      acc.attrs.map (fun p =>
        let d := copyWithinA 0 p.2.data (acc.nvs * p.2.itemSize)
          (info0.vertexStart * p.2.itemSize) ((info0.vertexStart + vertexCount) * p.2.itemSize)
        (p.1, { p.2 with data := d }))
    else acc.attrs
  let info1 :=
    if info0.vertexStart ≠ acc.nvs then { info0 with vertexStart := acc.nvs } else info0
  let idxInfo :=
    match acc.idx with
    | some arr =>
      if info1.indexStart ≠ acc.nis then
        let delta := acc.nvs - info1.vertexStart
        let arr1 := addInRange arr info1.indexStart (info1.indexStart + indexCount) delta
        let arr2 := copyWithinA 0 arr1 acc.nis info1.indexStart (info1.indexStart + indexCount)
        (some arr2, { info1 with indexStart := acc.nis })
      else (acc.idx, info1)
    | none => (acc.idx, info1)
  let info2 := idxInfo.2
  let info3 := { info2 with
    start := if hasIndex then info2.indexStart else info2.vertexStart
    count := if hasIndex then indexCount else vertexCount }
  { attrs := attrs1
    idx := idxInfo.1
    upds := acc.upds ++ [(e.1, info3)]
    nvs := acc.nvs + vertexCount
    nis := acc.nis + indexCount }

/-- `optimize`, lines 473-566. -/
def optimize (b : Batch) : Batch :=
  let hasIndex := b.indexData.isSome
  let entries :=
    List.insertionSort vsLe ((b.geometryInfo.enum).filter (fun e => e.2.active = true))
  let acc0 : OptAcc := ⟨b.attrs, b.indexData, [], 0, 0⟩
  let accF := entries.foldl (optStep hasIndex) acc0
  let infos1 := accF.upds.foldl (fun l u => l.set u.1 u.2) b.geometryInfo
  let idxF :=
    match accF.idx with
    | some arr => some (fun n => if accF.nis ≤ (n : ℤ) then (0 : ℤ) else arr n)
    | none => none
  { b with
    attrs := accF.attrs
    indexData := idxF
    geometryInfo := infos1
    drawRange := some (0, if hasIndex then accF.nis else accF.nvs)
    nextVertexStart := accF.nvs
    nextIndexStart := accF.nis }

/-- `validateGeometryId`, lines 169-180. -/
def validateGeometryId (b : Batch) (geometryId : ℤ) : Except JsErr Unit :=
  if geometryId < 0 then Except.error JsErr.invalidGeometryId
  else
    match b.geometryInfo.get? geometryId.toNat with
    | none => Except.error JsErr.invalidGeometryId
    | some info =>
      if info.active = false then Except.error JsErr.invalidGeometryId else Except.ok ()

/-- The on-demand scan of `getBoundingBoxAt` (lines 577-595): box of the
draw-range slice `[start, start+count)`, through the index indirection when
the batch is indexed. -/
def scanBox (b : Batch) (pos : BatchAttr) (info : GeoInfo) : Option Box3 :=
  (List.range info.count.toNat).foldl
    (fun bx k =>
      let i : ℤ := info.start + k
      let iv : ℤ :=
        match b.indexData with
        | some idx => readAt 0 idx i
        | none => i
      expandByPoint bx (vecAt pos.itemSize pos.data iv)) none

/-- `getBoundingBoxAt`, lines 569-599, as a pure reader: `ok none` is the JS
`null` return for `geometryId ≥ _geometryCount`, and `ok (some bx)` the
value copied into `target` (inner `none` = the empty box).  The JS caches a
freshly scanned box in the region table; that cached value equals the value
returned here, so the returned value is a function of the state alone. -/
def getBoundingBoxAt (b : Batch) (geometryId : ℤ) : Except JsErr (Option (Option Box3)) :=
  if (b.geometryCount : ℤ) ≤ geometryId then Except.ok none
  else if geometryId < 0 then Except.error JsErr.typeError
  else
    match b.geometryInfo.get? geometryId.toNat with
    | none => Except.error JsErr.typeError
    | some info =>
      match info.boundingBox with
      | some bx => Except.ok (some (some bx))
      | none =>
        match alookup b.attrs AttrName.position with
        | none => Except.error JsErr.typeError
        | some pos => Except.ok (some (scanBox b pos info))

/-- The on-demand scan of `getBoundingSphereAt` (lines 610-637): center from
the region's bounding box (`getCenter` of the empty box is the origin),
squared radius the maximal squared center distance over the draw-range
slice. -/
def scanSphere (b : Batch) (pos : BatchAttr) (info : GeoInfo) (bx : Option Box3) : SphereQ :=
  let c :=
    match bx with
    | some bx0 => boxCenter bx0
    | none => ⟨0, 0, 0⟩
  ⟨c, (List.range info.count.toNat).foldl
    (fun m k =>
      let i : ℤ := info.start + k
      let iv : ℤ :=
        match b.indexData with
        | some idx => readAt 0 idx i
        | none => i
      Max.max m (distSq c (vecAt pos.itemSize pos.data iv))) 0⟩

/-- `getBoundingSphereAt`, lines 602-642, as a pure reader (same conventions
as `getBoundingBoxAt`). -/
def getBoundingSphereAt (b : Batch) (geometryId : ℤ) : Except JsErr (Option SphereQ) :=
  if (b.geometryCount : ℤ) ≤ geometryId then Except.ok none
  else if geometryId < 0 then Except.error JsErr.typeError
  else
    match b.geometryInfo.get? geometryId.toNat with
    | none => Except.error JsErr.typeError
    | some info =>
      match info.boundingSphere with
      | some s => Except.ok (some s)
      | none =>
        match alookup b.attrs AttrName.position with
        | none => Except.error JsErr.typeError
        | some pos =>
          let bx :=
            match info.boundingBox with
            | some bx0 => some bx0
            | none => scanBox b pos info
          Except.ok (some (scanSphere b pos info bx))

/-- `getVisibleAt`, lines 656-659. -/
def getVisibleAt (b : Batch) (geometryId : ℤ) : Except JsErr Bool :=
  match validateGeometryId b geometryId with
  | Except.error e => Except.error e
  | Except.ok _ => Except.ok (b.geometryInfo.getD geometryId.toNat dummyInfo).visible

/-- `setVisibleAt`, lines 644-654. -/
def setVisibleAt (b : Batch) (geometryId : ℤ) (value : Bool) : Batch × Except JsErr Unit :=
  match validateGeometryId b geometryId with
  | Except.error e => (b, Except.error e)
  | Except.ok _ =>
    let info := b.geometryInfo.getD geometryId.toNat dummyInfo
    if info.visible = value then (b, Except.ok ())
    else
      ({ b with geometryInfo :=
          b.geometryInfo.set geometryId.toNat { info with visible := value } },
       Except.ok ())

/-- `getGeometryAt`, lines 661-664. -/
def getGeometryAt (b : Batch) (geometryId : ℤ) : Except JsErr GeoInfo :=
  match validateGeometryId b geometryId with
  | Except.error e => Except.error e
  | Except.ok _ => Except.ok (b.geometryInfo.getD geometryId.toNat dummyInfo)

/-- What `_intersectWith` (lines 827-877) feeds the intersection test for
one region: nothing when hidden/inactive; the cached box on the
`bboxIntersectionCheck` path; otherwise the draw-range slice of the shared
buffers — the vertices the scratch `LineSegments.raycast` reads through the
index indirection (consecutive pairs form the tested segments).  The
sphere pre-test of `LineSegments.raycast` uses `getBoundingSphereAt`, which
serves the cached per-region sphere; the returned `THREE.Intersection`s are
a function of this observable and the raycaster. -/
inductive RayObs where
  | skipped
  | bboxTest (box : Option Box3)
  | exact (pts : List Vec3)
deriving DecidableEq

/-- The region data read by a ray-intersection query against one handle. -/
def rayObservableAt (b : Batch) (geometryId : ℕ) : RayObs :=
  match b.geometryInfo.get? geometryId with
  | none => RayObs.skipped
  | some info =>
    if info.visible = false ∨ info.active = false then RayObs.skipped
    else if info.bboxIntersectionCheck then RayObs.bboxTest info.boundingBox
    else
      match alookup b.attrs AttrName.position with
      | none => RayObs.exact []
      | some pos =>
        RayObs.exact ((List.range info.count.toNat).map (fun k =>
          let i : ℤ := info.start + k
          let iv : ℤ :=
            match b.indexData with
            | some idx => readAt 0 idx i
            | none => i
          vecAt pos.itemSize pos.data iv))

/-- `extractGeometry`, lines 708-781.  The destination-attribute allocation
loop (line 727) reads the undeclared identifier `maxVertexCount` — a JS
`ReferenceError` on its first iteration, i.e. whenever the batch has at
least one attribute (`totalVertexCount` was evidently intended). -/
def extractGeometry (b : Batch) (batchIds : List ℤ) : Except JsErr Geometry :=
  let totals := batchIds.foldl
    (fun acc id =>
      match acc with
      | Except.error e => Except.error e
      | Except.ok t =>
        match getGeometryAt b id with
        | Except.error e => Except.error e
        | Except.ok info =>
          Except.ok (t.1 + info.vertexCount,
            t.2 + if b.indexData.isSome then info.indexCount else 0))
    (Except.ok ((0 : ℤ), (0 : ℤ)))
  match totals with
  | Except.error e => Except.error e
  | Except.ok t =>
    match b.attrs with
    | _ :: _ => Except.error JsErr.referenceError
    | [] =>
      -- attribute-less batch: no destination attributes are allocated, so
      -- the undeclared identifier is never reached
      match b.indexData with
      | some src =>
        let step := fun (acc : ℤ × ℤ × (ℕ → ℤ)) (id : ℤ) =>
          match getGeometryAt b id with
          -- unreachable: the totals loop validated every id
          | Except.error _ => acc
          | Except.ok info =>
            let d := fun (n : ℕ) =>
              if acc.2.1 ≤ (n : ℤ) ∧ (n : ℤ) < acc.2.1 + info.indexCount then
                readAt 0 src (info.indexStart + ((n : ℤ) - acc.2.1)) - info.vertexStart + acc.1
              else acc.2.2 n
            (acc.1 + info.vertexCount, acc.2.1 + info.indexCount, d)
        let resF := batchIds.foldl step ((0 : ℤ), (0 : ℤ), fun _ => (0 : ℤ))
        Except.ok { attributes := [], index := some ⟨t.2.toNat, resF.2.2⟩,
                    boundingBox := none, boundingSphere := none }
      | none =>
        Except.ok { attributes := [], index := none,
                    boundingBox := none, boundingSphere := none }

/-! ## Concrete inputs for the scenario claims -/

/-- Flat rational array from a literal list (zero beyond the end). -/
def qdata (l : List ℚ) : ℕ → ℚ := fun n => l.getD n 0

/-- Flat integer array from a literal list (zero beyond the end). -/
def zdata (l : List ℤ) : ℕ → ℤ := fun n => l.getD n 0

/-- A `position` attribute (three components per vertex) over a literal
component list. -/
def posAttr (l : List ℚ) : BufferAttr := ⟨3, false, l.length / 3, qdata l⟩

/-- A non-indexed line geometry with the given `position` components. -/
def lineGeom (l : List ℚ) : Geometry :=
  ⟨[(AttrName.position, posAttr l)], none, none, none⟩

/-- An indexed line geometry with the given `position` components and
index list. -/
def idxGeom (l : List ℚ) (il : List ℤ) : Geometry :=
  ⟨[(AttrName.position, posAttr l)], some ⟨il.length, zdata il⟩, none, none⟩

/-- C9 scenario, step 0: a fresh batch with capacity for 1000 vertices (the
constructor's default index capacity is twice that). -/
def c9s0 : Batch := mkBatch 1000 2000

/-- C9 scenario: the three geometries (4, 6 and 4 vertices). -/
def c9g1 : Geometry := lineGeom [1, 0, 0, 2, 0, 0, 3, 0, 0, 4, 0, 0]

def c9g2 : Geometry :=
  lineGeom [10, 0, 0, 11, 0, 0, 12, 0, 0, 13, 0, 0, 14, 0, 0, 15, 0, 0]

def c9g3 : Geometry := lineGeom [20, 0, 0, 21, 0, 0, 22, 0, 0, 23, 0, 0]

def c9s1 : Batch := (addGeometry c9s0 c9g1 (-1) (-1)).1

def c9s2 : Batch := (addGeometry c9s1 c9g2 (-1) (-1)).1

def c9s3 : Batch := (deleteGeometry c9s2 0).1

def c9s4 : Batch := (addGeometry c9s3 c9g3 (-1) (-1)).1

def c9s5 : Batch := optimize c9s4

/-- Indexed scenario (C1, C2): three 2-vertex segments, one index pair
each. -/
def cig1 : Geometry := idxGeom [1, 1, 1, 2, 2, 2] [0, 1]

def cig2 : Geometry := idxGeom [10, 10, 10, 11, 11, 11] [0, 1]

def cig3 : Geometry := idxGeom [20, 20, 20, 21, 21, 21] [0, 1]

def cis1 : Batch := (addGeometry (mkBatch 1000 2000) cig1 (-1) (-1)).1

def cis2 : Batch := (addGeometry cis1 cig2 (-1) (-1)).1

def cis3 : Batch := (addGeometry cis2 cig3 (-1) (-1)).1

/-- Indexed scenario: handle 0 deleted; handles 1 and 2 live. -/
def cis4 : Batch := (deleteGeometry cis3 0).1

/-- Indexed scenario after compaction. -/
def cis5 : Batch := optimize cis4

/-- Decidable equality for `Except` values (used to evaluate the scenario
theorems). -/
instance exceptDecEq {ε α : Type} [DecidableEq ε] [DecidableEq α] : DecidableEq (Except ε α)
  | Except.ok x, Except.ok y =>
    if h : x = y then isTrue (by subst h; rfl)
    else isFalse (fun hc => h (Except.ok.inj hc))
  | Except.error x, Except.error y =>
    if h : x = y then isTrue (by subst h; rfl)
    else isFalse (fun hc => h (Except.error.inj hc))
  | Except.ok _, Except.error _ => isFalse (fun hc => Except.noConfusion hc)
  | Except.error _, Except.ok _ => isFalse (fun hc => Except.noConfusion hc)

/-- Region-table entry of `b` at table position `i` (the `getD` default is
never reached at in-range positions). -/
def infoAt (b : Batch) (i : ℕ) : GeoInfo := b.geometryInfo.getD i dummyInfo

/-- Entry `n` of the shared index buffer (`-1` when the batch is not
indexed; used only on indexed batches). -/
def indexAt (b : Batch) (n : ℕ) : ℤ :=
  match b.indexData with
  | some a => a n
  | none => -1

/-- Component `n` of the shared `position` buffer. -/
def positionAt (b : Batch) (n : ℕ) : ℚ :=
  match alookup b.attrs AttrName.position with
  | some a => a.data n
  | none => 0

/-- Error projection of an `Except` whose value type carries functions (and
so has no decidable equality). -/
def errOf {α : Type} : Except JsErr α → Option JsErr
  | Except.error e => some e
  | Except.ok _ => none

/-- Disjointness of the half-open ranges `[a, a+r)` and `[b, b+s)`. -/
def rangesDisjoint (a r b s : ℤ) : Prop := a + r ≤ b ∨ b + s ≤ a

instance (a r b s : ℤ) : Decidable (rangesDisjoint a r b s) :=
  inferInstanceAs (Decidable (_ ∨ _))

/-- C6 counterexample payload: `position` plus an extra `color` attribute. -/
def c6payload : Geometry :=
  ⟨[(AttrName.position, posAttr [5, 5, 5, 6, 6, 6]),
    (AttrName.color, ⟨3, false, 2, qdata [1, 1, 1, 1, 1, 1]⟩)], none, none, none⟩

/-- C5 counterexample payload: two vertices, to be added with an explicit
reservation of a single vertex. -/
def c5bad : Geometry := lineGeom [7, 7, 7, 8, 8, 8]

/-- C3 counterexample, step 1: a 2-vertex geometry added with an explicit
reservation of 8 vertices. -/
def c3s1 : Batch := (addGeometry (mkBatch 1000 2000) (lineGeom [1, 1, 1, 2, 2, 2]) 8 (-1)).1

/-- C3 counterexample, step 2: a second 2-vertex geometry with the default
reservation. -/
def c3s2 : Batch := (addGeometry c3s1 (lineGeom [3, 3, 3, 4, 4, 4]) (-1) (-1)).1

/-- A payload with no attributes at all: `_validateGeometry` rejects it with
the missing-`position` message. -/
def emptyGeom : Geometry :=
  { attributes := [], index := none, boundingBox := none, boundingSphere := none }

/-- C4 witness scenario: a tiny batch with vertex capacity 4; the first
payload (2 vertices) fits, the second (4 vertices) exceeds the remaining
tail of 2 and forces growth to `(4 + 4) * 1.5 = 12`. -/
def c4g1 : Geometry := lineGeom [1, 1, 1, 2, 2, 2]

def c4g2 : Geometry := lineGeom [3, 3, 3, 4, 4, 4, 5, 5, 5, 6, 6, 6]

def c4s1 : Batch := (addGeometry (mkBatch 4 8) c4g1 (-1) (-1)).1

/-- Per-region well-formedness: an active region has nonnegative bounds
below the cursors with `count ≤ reservedCount` (for both buffers when the
batch is indexed). -/
def regionOk (b : Batch) (i : ℕ) : Prop :=
  (infoAt b i).active = true →
    0 ≤ (infoAt b i).vertexStart ∧
    0 ≤ (infoAt b i).vertexCount ∧
    (infoAt b i).vertexCount ≤ (infoAt b i).reservedVertexCount ∧
    (infoAt b i).vertexStart + (infoAt b i).reservedVertexCount ≤ b.nextVertexStart ∧
    (b.indexData.isSome = true →
      0 ≤ (infoAt b i).indexStart ∧
      0 ≤ (infoAt b i).indexCount ∧
      (infoAt b i).indexCount ≤ (infoAt b i).reservedIndexCount ∧
      (infoAt b i).indexStart + (infoAt b i).reservedIndexCount ≤ b.nextIndexStart)

instance (b : Batch) (i : ℕ) : Decidable (regionOk b i) := by
  unfold regionOk
  infer_instance

/-- Per-pair well-formedness: the reserved ranges of two distinct active
regions are disjoint (in both buffers when the batch is indexed). -/
def pairOk (b : Batch) (i j : ℕ) : Prop :=
  i ≠ j → (infoAt b i).active = true → (infoAt b j).active = true →
    rangesDisjoint (infoAt b i).vertexStart (infoAt b i).reservedVertexCount
      (infoAt b j).vertexStart (infoAt b j).reservedVertexCount ∧
    (b.indexData.isSome = true →
      rangesDisjoint (infoAt b i).indexStart (infoAt b i).reservedIndexCount
        (infoAt b j).indexStart (infoAt b j).reservedIndexCount)

instance (b : Batch) (i j : ℕ) : Decidable (pairOk b i j) := by
  unfold pairOk
  infer_instance

/-- Well-formedness of a batch state, as maintained by the reachable states
of `AcTrBatchedLine`: the table length agrees with `_geometryCount`, the
free list holds distinct in-range inactive ids, the cursors are nonnegative,
every region satisfies `regionOk`, and reserved ranges of distinct active
regions never overlap (`pairOk`). -/
def WF (b : Batch) : Prop :=
  b.geometryInfo.length = b.geometryCount ∧
  b.availableGeometryIds.Nodup ∧
  (∀ id ∈ b.availableGeometryIds, id < b.geometryInfo.length ∧ (infoAt b id).active = false) ∧
  0 ≤ b.nextVertexStart ∧
  (b.indexData.isSome = true → 0 ≤ b.nextIndexStart) ∧
  (∀ i < b.geometryInfo.length, regionOk b i) ∧
  (∀ i < b.geometryInfo.length, ∀ j < b.geometryInfo.length, pairOk b i j)

instance (b : Batch) : Decidable (WF b) := by
  unfold WF
  infer_instance

/-- Boolean check that every batch attribute in `l` appears in `g` with
matching `itemSize` and `normalized`; extra payload attributes are not
inspected. -/
def attrOk (g : Geometry) (p : AttrName × BatchAttr) : Bool :=
  match alookup g.attributes p.1 with
  | some s => s.itemSize == p.2.itemSize && s.normalized == p.2.normalized
  | none => false

/-- `schemaSuperset g l` says the payload `g` covers every batch attribute
of `l` (so its attribute set is a superset of the schema). -/
def schemaSuperset (g : Geometry) (l : List (AttrName × BatchAttr)) : Bool :=
  l.all (attrOk g)

/-- C1 (code_bug evidence): at the concrete indexed batch `cis4` (three
2-vertex segments, handle 0 deleted), `optimize` preserves handle 1's
`getBoundingBoxAt` and `getVisibleAt` results but changes the data a
ray-intersection query against handle 1 reads: before compaction the query
tests the segment (10,10,10)-(11,11,11), afterwards (20,20,20)-(21,21,21) —
the stale absolute indices 2,3 survive the move and now address handle 2's
relocated vertices — so the intersections reported for a ray through the
original segment differ across `optimize`. -/
theorem c1_compaction_raycast_divergence :
    getBoundingBoxAt (optimize cis4) 1 = getBoundingBoxAt cis4 1 ∧
    getVisibleAt (optimize cis4) 1 = getVisibleAt cis4 1 ∧
    rayObservableAt cis4 1 = RayObs.exact [⟨10, 10, 10⟩, ⟨11, 11, 11⟩] ∧
    rayObservableAt (optimize cis4) 1 = RayObs.exact [⟨20, 20, 20⟩, ⟨21, 21, 21⟩] ∧
    rayObservableAt (optimize cis4) 1 ≠ rayObservableAt cis4 1 := by with_unfolding_all decide

/-- C2 (code_bug evidence): compacting `cis4` does repack contiguously in
`vertexStart` order (handle 1 to vertex 0 / index 0, handle 2 to vertex 2 /
index 2), zeroes the index tail and sets the draw range to the packed size
4, but the stored absolute index values are *not* remapped: entries 0 and 1
still hold 2 and 3 where the claim requires the region's new `vertexStart`
(0) plus the original local indices, i.e. 0 and 1 — the remap `delta` is
computed after `info.vertexStart` was already overwritten, so it is always
0. -/
theorem c2_optimize_no_remap :
    (infoAt (optimize cis4) 1).vertexStart = 0 ∧
    (infoAt (optimize cis4) 1).indexStart = 0 ∧
    (infoAt (optimize cis4) 2).vertexStart = 2 ∧
    (infoAt (optimize cis4) 2).indexStart = 2 ∧
    (optimize cis4).drawRange = some (0, 4) ∧
    (optimize cis4).nextVertexStart = 4 ∧
    indexAt (optimize cis4) 4 = 0 ∧
    indexAt cis4 2 = 2 ∧ indexAt cis4 3 = 3 ∧
    indexAt (optimize cis4) 0 = 2 ∧ indexAt (optimize cis4) 1 = 3 ∧
    indexAt (optimize cis4) 0 ≠ (infoAt (optimize cis4) 1).vertexStart + 0 := by with_unfolding_all decide

/-- C8 (code_bug evidence): on the live one-region batch `cis1`,
`extractGeometry [0]` raises a ReferenceError — the destination-attribute
allocation loop reads the undeclared identifier `maxVertexCount` — so the
extract-then-re-add round trip never gets a payload to re-add. -/
theorem c8_extract_reference_error :
    errOf (extractGeometry cis1 [0]) = some JsErr.referenceError ∧
    getVisibleAt cis1 0 = Except.ok true := by with_unfolding_all decide

/-- C9 (counterexample): in the claimed scenario, after `optimize()` handle
0's storage starts at vertex 6, not at vertex 0. -/
theorem c9_counterexample :
    (infoAt (optimize c9s4) 0).vertexStart ≠ 0 ∧
    (infoAt (optimize c9s4) 0).vertexStart = 6 := by with_unfolding_all decide

/-- C9 (amended): the scenario as the code runs it — handles 0, 1 and
reused 0 with regions `[0,4)`, `[4,10)` and tail `[10,14)` as claimed, but
after `optimize()` the active regions are packed in current-`vertexStart`
order, so handle 1's storage occupies `[0,6)` and handle 0's occupies
`[6,10)` (its first component 20 moves from flat position 30 to 18), with
handle numbering unchanged. -/
theorem c9_scenario :
    (addGeometry c9s0 c9g1 (-1) (-1)).2 = Except.ok 0 ∧
    (infoAt c9s1 0).vertexStart = 0 ∧ (infoAt c9s1 0).reservedVertexCount = 4 ∧
    (addGeometry c9s1 c9g2 (-1) (-1)).2 = Except.ok 1 ∧
    (infoAt c9s2 1).vertexStart = 4 ∧ (infoAt c9s2 1).reservedVertexCount = 6 ∧
    (addGeometry c9s3 c9g3 (-1) (-1)).2 = Except.ok 0 ∧
    (infoAt c9s4 0).vertexStart = 10 ∧ (infoAt c9s4 0).vertexCount = 4 ∧
    (infoAt c9s4 0).active = true ∧ positionAt c9s4 30 = 20 ∧
    (infoAt c9s5 1).vertexStart = 0 ∧ (infoAt c9s5 1).vertexCount = 6 ∧
    (infoAt c9s5 0).vertexStart = 6 ∧ (infoAt c9s5 0).vertexCount = 4 ∧
    positionAt c9s5 18 = 20 ∧
    (infoAt c9s5 0).active = true ∧ (infoAt c9s5 1).active = true ∧
    c9s5.geometryCount = 2 := by with_unfolding_all decide

/-- C10 (counterexample): `deleteGeometry (-1)` on a fresh batch reads
`_geometryInfo[-1].active` on `undefined` and raises a TypeError instead of
being an error-free no-op on an out-of-range handle. -/
theorem c10_counterexample :
    (deleteGeometry (mkBatch 1000 2000) (-1)).2 = Except.error JsErr.typeError := by with_unfolding_all decide

/-- C7 (counterexample): handle 0 of `c9s3` is deleted (so
`validateGeometryId` rejects it), yet `getBoundingBoxAt` and
`getBoundingSphereAt` raise nothing and serve the cached bounds, and an
out-of-range handle gets the JS `null` (`ok none`) rather than an
invalid-handle error. -/
theorem c7_counterexample :
    validateGeometryId c9s3 0 = Except.error JsErr.invalidGeometryId ∧
    getBoundingBoxAt c9s3 0 = Except.ok (some (some ⟨⟨1, 0, 0⟩, ⟨4, 0, 0⟩⟩)) ∧
    getBoundingSphereAt c9s3 0 = Except.ok (some ⟨⟨5 / 2, 0, 0⟩, 9 / 4⟩) ∧
    getBoundingBoxAt c9s2 5 = Except.ok none := by with_unfolding_all decide

/-- C6 (counterexample): the `{position}`-schema batch `c9s1` accepts a
payload that also carries a `color` attribute: `addGeometry` returns handle
1 with no error, and the batch schema still holds `position` only (the
extra attribute is silently ignored), contradicting the claimed
schema-mismatch failure. -/
theorem c6_counterexample :
    (addGeometry c9s1 c6payload (-1) (-1)).2 = Except.ok 1 ∧
    (addGeometry c9s1 c6payload (-1) (-1)).1.geometryCount = 2 ∧
    (addGeometry c9s1 c6payload (-1) (-1)).1.attrs.map (fun p => p.1) =
      [AttrName.position] := by with_unfolding_all decide

/-- C5 (counterexample): `addGeometry` with an explicit reservation of 1
vertex for a 2-vertex geometry throws `reservedNotLargeEnough`, yet the
failed call leaves the new region allocated: the geometry count grew from 1
to 2 and an `active` entry with unset (-1) counts sits in the table while
the cursors were never advanced — a half-written region, refuting
atomicity. -/
theorem c5_counterexample :
    (addGeometry c9s1 c5bad 1 (-1)).2 = Except.error JsErr.reservedNotLargeEnough ∧
    c9s1.geometryCount = 1 ∧
    (addGeometry c9s1 c5bad 1 (-1)).1.geometryCount = 2 ∧
    (infoAt (addGeometry c9s1 c5bad 1 (-1)).1 1).active = true ∧
    (infoAt (addGeometry c9s1 c5bad 1 (-1)).1 1).vertexCount = -1 ∧
    (addGeometry c9s1 c5bad 1 (-1)).1.nextVertexStart = c9s1.nextVertexStart := by with_unfolding_all decide

/-- C3 (counterexample): region 0 is added with an 8-vertex reservation but
only 2 vertices; after `optimize` on `c3s2` region 1 is packed to vertex 2,
inside region 0's still-8-wide reserved range `[0,8)` — the reserved ranges
of two distinct active regions overlap. -/
theorem c3_counterexample :
    (infoAt (optimize c3s2) 0).vertexStart = 0 ∧
    (infoAt (optimize c3s2) 0).reservedVertexCount = 8 ∧
    (infoAt (optimize c3s2) 1).vertexStart = 2 ∧
    (infoAt (optimize c3s2) 1).reservedVertexCount = 2 ∧
    (infoAt (optimize c3s2) 0).active = true ∧
    (infoAt (optimize c3s2) 1).active = true ∧
    ¬ rangesDisjoint (infoAt (optimize c3s2) 0).vertexStart
        (infoAt (optimize c3s2) 0).reservedVertexCount
        (infoAt (optimize c3s2) 1).vertexStart
        (infoAt (optimize c3s2) 1).reservedVertexCount := by with_unfolding_all decide

/-- C10 (amended): `deleteGeometry` is idempotent on every handle, and on
nonnegative invalid handles (at or above the table length, or already
inactive) it is an error-free no-op; a negative handle, however, raises a
TypeError (`_geometryInfo[h].active` on `undefined`). -/
theorem c10_delete_idempotent_total_on_nonneg :
    (∀ b : Batch, ∀ h : ℤ,
      (deleteGeometry (deleteGeometry b h).1 h).1 = (deleteGeometry b h).1) ∧
    (∀ b : Batch, ∀ h : ℤ, 0 ≤ h →
      ((b.geometryInfo.length : ℤ) ≤ h ∨ (infoAt b h.toNat).active = false) →
      deleteGeometry b h = (b, Except.ok ())) ∧
    (∀ b : Batch, ∀ h : ℤ, h < 0 →
      deleteGeometry b h = (b, Except.error JsErr.typeError)) := by
  refine ⟨?_, ?_, ?_⟩
  · intro b h
    by_cases h1 : (b.geometryInfo.length : ℤ) ≤ h
    · simp [deleteGeometry, h1]
    · by_cases h2 : h < 0
      · simp [deleteGeometry, h1, h2]
      · rcases hg : b.geometryInfo[h.toNat]? with _ | info
        · simp [deleteGeometry, h1, h2, hg]
        · by_cases ha : info.active = false
          · simp [deleteGeometry, h1, h2, hg, ha]
          · have h1' : ¬ (((b.geometryInfo.set h.toNat
                { info with active := false, visible := false }).length : ℤ) ≤ h) := by
              simpa [List.length_set] using h1
            have hg' : (b.geometryInfo.set h.toNat
                { info with active := false, visible := false })[h.toNat]? =
                some { info with active := false, visible := false } := by
              rw [List.getElem?_set_self']
              simp [hg, Function.const]
            simp [deleteGeometry, h1, h2, hg, ha, h1', hg']
  · intro b h h0 hinv
    rcases hinv with hlen | hina
    · simp [deleteGeometry, hlen]
    · by_cases h1 : (b.geometryInfo.length : ℤ) ≤ h
      · simp [deleteGeometry, h1]
      · rcases hg : b.geometryInfo[h.toNat]? with _ | info
        · exact absurd (List.getElem?_eq_none_iff.mp hg) (by omega)
        · have : info.active = false := by
            simpa [infoAt, List.getD_eq_getElem?_getD, hg] using hina
          simp [deleteGeometry, h1, not_lt.mpr h0, hg, this]
  · intro b h hneg
    have h1 : ¬ ((b.geometryInfo.length : ℤ) ≤ h) := by
      have : (0 : ℤ) ≤ b.geometryInfo.length := Int.ofNat_nonneg _
      omega
    simp [deleteGeometry, h1, hneg]

/-- C10 (witness): the amended theorem applied to the two-region batch
`c9s2` — a double delete of handle 0, an error-free no-op on the
out-of-range handle 5, and the TypeError on handle -1. -/
theorem c10_delete_witness :
    (deleteGeometry (deleteGeometry c9s2 0).1 0).1 = (deleteGeometry c9s2 0).1 ∧
    deleteGeometry c9s2 5 = (c9s2, Except.ok ()) ∧
    deleteGeometry c9s2 (-1) = (c9s2, Except.error JsErr.typeError) :=
  ⟨c10_delete_idempotent_total_on_nonneg.1 c9s2 0,
   c10_delete_idempotent_total_on_nonneg.2.1 c9s2 5 (by decide)
     (Or.inl (by with_unfolding_all decide)),
   c10_delete_idempotent_total_on_nonneg.2.2 c9s2 (-1) (by decide)⟩

/-- C7 (amended): `getVisibleAt`, `setVisibleAt` and `getGeometryAt` do
validate the handle first and raise the invalid-or-deleted-handle error
without touching state; but `getBoundingBoxAt` and `getBoundingSphereAt` do
not validate — a handle at or above `_geometryCount` yields the JS `null`
(`ok none`) and a deleted in-range handle is served its cached box with no
error. -/
theorem c7_accessor_validation :
    (∀ b : Batch, ∀ h : ℤ, ∀ e : JsErr, ∀ v : Bool,
      validateGeometryId b h = Except.error e →
      getVisibleAt b h = Except.error e ∧ getGeometryAt b h = Except.error e ∧
      setVisibleAt b h v = (b, Except.error e)) ∧
    (∀ b : Batch, ∀ h : ℤ, (b.geometryCount : ℤ) ≤ h →
      getBoundingBoxAt b h = Except.ok none ∧ getBoundingSphereAt b h = Except.ok none) ∧
    (∀ b : Batch, ∀ h : ℤ, ∀ bx : Box3, 0 ≤ h → h.toNat < b.geometryInfo.length →
      h < (b.geometryCount : ℤ) →
      (infoAt b h.toNat).active = false → (infoAt b h.toNat).boundingBox = some bx →
      validateGeometryId b h = Except.error JsErr.invalidGeometryId ∧
      getBoundingBoxAt b h = Except.ok (some (some bx))) := by
  refine ⟨?_, ?_, ?_⟩
  · intro b h e v hval
    exact ⟨by simp [getVisibleAt, hval], by simp [getGeometryAt, hval],
      by simp [setVisibleAt, hval]⟩
  · intro b h hle
    exact ⟨by simp [getBoundingBoxAt, hle], by simp [getBoundingSphereAt, hle]⟩
  · intro b h bx h0 hlen hcount ha hbx
    have hget : b.geometryInfo[h.toNat]? = some (infoAt b h.toNat) := by
      rw [List.getElem?_eq_getElem hlen]
      simp [infoAt, List.getD_eq_getElem?_getD, List.getElem?_eq_getElem hlen]
    constructor
    · simp [validateGeometryId, not_lt.mpr h0, hget, ha]
    · simp [getBoundingBoxAt, not_le.mpr hcount, not_lt.mpr h0, hget, hbx]

/-- C7 (witness): the amended theorem applied to `c9s3` (whose handle 0 is
deleted with a cached box) and to the out-of-range handle 5 of `c9s2`. -/
theorem c7_accessor_witness :
    (getVisibleAt c9s3 0 = Except.error JsErr.invalidGeometryId ∧
      getGeometryAt c9s3 0 = Except.error JsErr.invalidGeometryId ∧
      setVisibleAt c9s3 0 true = (c9s3, Except.error JsErr.invalidGeometryId)) ∧
    (getBoundingBoxAt c9s2 5 = Except.ok none ∧
      getBoundingSphereAt c9s2 5 = Except.ok none) ∧
    (validateGeometryId c9s3 0 = Except.error JsErr.invalidGeometryId ∧
      getBoundingBoxAt c9s3 0 = Except.ok (some (some ⟨⟨1, 0, 0⟩, ⟨4, 0, 0⟩⟩))) :=
  ⟨c7_accessor_validation.1 c9s3 0 JsErr.invalidGeometryId true
      (by with_unfolding_all decide),
   c7_accessor_validation.2.1 c9s2 5 (by with_unfolding_all decide),
   c7_accessor_validation.2.2 c9s3 0 ⟨⟨1, 0, 0⟩, ⟨4, 0, 0⟩⟩ (by decide)
      (by with_unfolding_all decide) (by with_unfolding_all decide)
      (by with_unfolding_all decide) (by with_unfolding_all decide)⟩

/-- C6 (amended): `_validateGeometry` raises schema-mismatch only when the
payload *lacks* a batch attribute, differs in `itemSize`/`normalized`, or
differs in index presence; any payload whose attribute set is a superset of
the schema passes validation, and concretely the `{position}` batch `c9s1`
accepts the `{position, color}` payload, allocating handle 1 and keeping
the schema unchanged. -/
theorem c6_superset_schema_accepted :
    (∀ (g : Geometry) (l : List (AttrName × BatchAttr)),
      schemaSuperset g l = true → validateAttrs g l = Except.ok ()) ∧
    (∀ (b : Batch) (g : Geometry), g.index.isSome = b.indexData.isSome →
      schemaSuperset g b.attrs = true → validateGeometry b g = Except.ok ()) ∧
    ((addGeometry c9s1 c6payload (-1) (-1)).2 = Except.ok 1 ∧
      (addGeometry c9s1 c6payload (-1) (-1)).1.attrs.map (fun p => p.1) =
        [AttrName.position]) := by
  have part1 : ∀ (g : Geometry) (l : List (AttrName × BatchAttr)),
      schemaSuperset g l = true → validateAttrs g l = Except.ok () := by
    intro g l
    induction l with
    | nil => intro _; rfl
    | cons p rest ih =>
      intro hall
      rcases p with ⟨nm, a⟩
      rw [schemaSuperset, List.all_cons, Bool.and_eq_true] at hall
      rcases hall with ⟨h1, h2⟩
      rcases hq : alookup g.attributes nm with _ | s
      · simp only [attrOk, hq] at h1
        exact absurd h1 (by simp)
      · simp only [attrOk, hq, Bool.and_eq_true, beq_iff_eq] at h1
        have hcond : ¬ (s.itemSize ≠ a.itemSize ∨ s.normalized ≠ a.normalized) := by
          simp [h1.1, h1.2]
        simp only [validateAttrs, hq, if_neg hcond]
        exact ih h2
  refine ⟨part1, ?_, ?_, ?_⟩
  · intro b g hidx hsup
    have hcond : ¬ (g.index.isSome ≠ b.indexData.isSome) := by simp [hidx]
    simp only [validateGeometry, if_neg hcond]
    exact part1 g b.attrs hsup
  · with_unfolding_all decide
  · with_unfolding_all decide

/-- C6 (witness): the superset-acceptance parts applied to the concrete
`{position}` batch and `{position, color}` payload. -/
theorem c6_superset_witness :
    validateAttrs c6payload c9s1.attrs = Except.ok () ∧
    validateGeometry c9s1 c6payload = Except.ok () :=
  ⟨c6_superset_schema_accepted.1 c6payload c9s1.attrs (by with_unfolding_all decide),
   c6_superset_schema_accepted.2.1 c9s1 c6payload (by with_unfolding_all decide)
     (by with_unfolding_all decide)⟩

/-! ### Structural lemmas about the operations -/

lemma initGeometry_of_initialized (b : Batch) (g : Geometry)
    (h : b.geometryInitialized = true) : initGeometry b g = b := by
  simp [initGeometry, h]

/-- `_resizeSpaceIfNeeded` only ever changes the two capacity fields. -/
lemma resize_shape (b : Batch) (g : Geometry) :
    ∃ mv mi, resizeSpaceIfNeeded b g =
      { b with maxVertexCount := mv, maxIndexCount := mi } := by
  unfold resizeSpaceIfNeeded setGeometrySize
  split
  · exact ⟨_, _, rfl⟩
  · exact ⟨b.maxVertexCount, b.maxIndexCount, rfl⟩

lemma validateAttrs_congr (g g' : Geometry) (l : List (AttrName × BatchAttr))
    (h : g'.attributes = g.attributes) : validateAttrs g' l = validateAttrs g l := by
  induction l with
  | nil => rfl
  | cons p rest ih =>
    rcases p with ⟨nm, a⟩
    simp only [validateAttrs, h, ih]

lemma validateGeometry_congr (b b' : Batch) (g g' : Geometry)
    (hattrs : b'.attrs = b.attrs) (hidx : b'.indexData.isSome = b.indexData.isSome)
    (hg : g'.attributes = g.attributes) (hgidx : g'.index.isSome = g.index.isSome) :
    validateGeometry b' g' = validateGeometry b g := by
  unfold validateGeometry
  rw [hattrs, hidx, hgidx, validateAttrs_congr g g' _ hg]

/-- `setGeometryAt` either throws with the state untouched or returns the
handle. -/
lemma setGeometryAt_state (b : Batch) (h : ℤ) (g : Geometry) :
    (setGeometryAt b h g).1 = b ∨ (setGeometryAt b h g).2 = Except.ok h := by
  unfold setGeometryAt
  dsimp only
  repeat' split
  all_goals first | exact Or.inl rfl | exact Or.inr rfl

/-- `deleteGeometry` either leaves the state untouched or succeeds. -/
lemma deleteGeometry_state (b : Batch) (h : ℤ) :
    (deleteGeometry b h).1 = b ∨ (deleteGeometry b h).2 = Except.ok () := by
  unfold deleteGeometry
  repeat' split
  all_goals first | exact Or.inl rfl | exact Or.inr rfl

/-- Success specification of `setGeometryAt`: when the handle is in range,
the payload validates, `position` is present and both reserved-space checks
pass, the call succeeds and the result is exactly the write-back of the
three buffer/table updates. -/
lemma setGeometryAt_ok (b : Batch) (h : ℤ) (g : Geometry) (info : GeoInfo)
    (pos : BufferAttr)
    (hcount : h < (b.geometryCount : ℤ)) (h0 : 0 ≤ h)
    (hval : validateGeometry b g = Except.ok ())
    (hget : b.geometryInfo.get? h.toNat = some info)
    (hpos : alookup g.attributes AttrName.position = some pos)
    (hiv : b.indexData.isSome = true → srcIndexCountOf g ≤ info.reservedIndexCount)
    (hv : (pos.count : ℤ) ≤ info.reservedVertexCount) :
    setGeometryAt b h g =
      ({ b with
          attrs := b.attrs.map (setAttrWrite g info)
          indexData := setIndexWrite b.indexData g info
          geometryInfo := b.geometryInfo.set h.toNat
            (setInfoUpdate b.indexData.isSome g.index info pos.count g.boundingBox
              g.boundingSphere) }, Except.ok h) := by
  have hc1 : ¬ ((b.geometryCount : ℤ) ≤ h) := not_le.mpr hcount
  have hc2 : ¬ (h < 0) := not_lt.mpr h0
  have hcidx : ¬ (b.indexData.isSome = true ∧ info.reservedIndexCount < srcIndexCountOf g) := by
    rintro ⟨hs, hlt⟩
    exact absurd hlt (not_lt.mpr (hiv hs))
  have hcv : ¬ (info.reservedVertexCount < (pos.count : ℤ)) := not_lt.mpr hv
  simp only [setGeometryAt, hval, hget, hpos, if_neg hc1, if_neg hc2, if_neg hcidx,
    if_neg hcv]

/-- Inversion of a successful `setGeometryAt`: all checks passed and the
result is the triple write-back of `setGeometryAt_ok`. -/
lemma setGeometryAt_ok_inv (b : Batch) (h : ℤ) (g : Geometry) (gid : ℤ)
    (hok : (setGeometryAt b h g).2 = Except.ok gid) :
    gid = h ∧ 0 ≤ h ∧ h < (b.geometryCount : ℤ) ∧
    validateGeometry b g = Except.ok () ∧
    ∃ info pos,
      b.geometryInfo.get? h.toNat = some info ∧
      alookup g.attributes AttrName.position = some pos ∧
      (pos.count : ℤ) ≤ info.reservedVertexCount ∧
      (b.indexData.isSome = true → srcIndexCountOf g ≤ info.reservedIndexCount) ∧
      setGeometryAt b h g =
        ({ b with
            attrs := b.attrs.map (setAttrWrite g info)
            indexData := setIndexWrite b.indexData g info
            geometryInfo := b.geometryInfo.set h.toNat
              (setInfoUpdate b.indexData.isSome g.index info pos.count g.boundingBox
                g.boundingSphere) }, Except.ok h) := by
  have hshape := hok
  unfold setGeometryAt at hshape
  dsimp only at hshape
  split at hshape
  · exact absurd hshape (by simp)
  · rename_i hc1
    split at hshape
    · exact absurd hshape (by simp)
    · rename_i u hvaleq
      split at hshape
      · exact absurd hshape (by simp)
      · rename_i hc2
        split at hshape
        · exact absurd hshape (by simp)
        · rename_i info hget
          split at hshape
          · exact absurd hshape (by simp)
          · rename_i h5
            split at hshape
            · exact absurd hshape (by simp)
            · rename_i pos hpos
              split at hshape
              · exact absurd hshape (by simp)
              · rename_i h7
                have hval : validateGeometry b g = Except.ok () := by
                  cases u
                  exact hvaleq
                have hcount : h < (b.geometryCount : ℤ) := not_le.mp hc1
                have h0 : 0 ≤ h := not_lt.mp hc2
                have hv : (pos.count : ℤ) ≤ info.reservedVertexCount := not_lt.mp h7
                have hiv : b.indexData.isSome = true →
                    srcIndexCountOf g ≤ info.reservedIndexCount := by
                  intro hs
                  by_contra hlt
                  exact h5 ⟨hs, not_le.mp hlt⟩
                have hmain := setGeometryAt_ok b h g info pos hcount h0 hval hget hpos hiv hv
                have hgid : gid = h := by
                  rw [hmain] at hok
                  exact (Except.ok.inj hok).symm
                exact ⟨hgid, h0, hcount, hval, info, pos, hget, hpos, hv, hiv, hmain⟩

@[simp] lemma fillBounds_attributes (g : Geometry) :
    (fillBounds g).attributes = g.attributes := rfl

@[simp] lemma fillBounds_index (g : Geometry) : (fillBounds g).index = g.index := rfl

@[simp] lemma initGeometry_geometryInfo (b : Batch) (g : Geometry) :
    (initGeometry b g).geometryInfo = b.geometryInfo := by
  unfold initGeometry; split <;> rfl

@[simp] lemma initGeometry_availableGeometryIds (b : Batch) (g : Geometry) :
    (initGeometry b g).availableGeometryIds = b.availableGeometryIds := by
  unfold initGeometry; split <;> rfl

@[simp] lemma initGeometry_nextVertexStart (b : Batch) (g : Geometry) :
    (initGeometry b g).nextVertexStart = b.nextVertexStart := by
  unfold initGeometry; split <;> rfl

@[simp] lemma initGeometry_nextIndexStart (b : Batch) (g : Geometry) :
    (initGeometry b g).nextIndexStart = b.nextIndexStart := by
  unfold initGeometry; split <;> rfl

@[simp] lemma initGeometry_geometryCount (b : Batch) (g : Geometry) :
    (initGeometry b g).geometryCount = b.geometryCount := by
  unfold initGeometry; split <;> rfl

@[simp] lemma initGeometry_maxVertexCount (b : Batch) (g : Geometry) :
    (initGeometry b g).maxVertexCount = b.maxVertexCount := by
  unfold initGeometry; split <;> rfl

@[simp] lemma initGeometry_maxIndexCount (b : Batch) (g : Geometry) :
    (initGeometry b g).maxIndexCount = b.maxIndexCount := by
  unfold initGeometry; split <;> rfl

@[simp] lemma resize_geometryInfo (b : Batch) (g : Geometry) :
    (resizeSpaceIfNeeded b g).geometryInfo = b.geometryInfo := by
  unfold resizeSpaceIfNeeded setGeometrySize; split <;> rfl

@[simp] lemma resize_availableGeometryIds (b : Batch) (g : Geometry) :
    (resizeSpaceIfNeeded b g).availableGeometryIds = b.availableGeometryIds := by
  unfold resizeSpaceIfNeeded setGeometrySize; split <;> rfl

@[simp] lemma resize_nextVertexStart (b : Batch) (g : Geometry) :
    (resizeSpaceIfNeeded b g).nextVertexStart = b.nextVertexStart := by
  unfold resizeSpaceIfNeeded setGeometrySize; split <;> rfl

@[simp] lemma resize_nextIndexStart (b : Batch) (g : Geometry) :
    (resizeSpaceIfNeeded b g).nextIndexStart = b.nextIndexStart := by
  unfold resizeSpaceIfNeeded setGeometrySize; split <;> rfl

@[simp] lemma resize_geometryCount (b : Batch) (g : Geometry) :
    (resizeSpaceIfNeeded b g).geometryCount = b.geometryCount := by
  unfold resizeSpaceIfNeeded setGeometrySize; split <;> rfl

@[simp] lemma resize_attrs (b : Batch) (g : Geometry) :
    (resizeSpaceIfNeeded b g).attrs = b.attrs := by
  unfold resizeSpaceIfNeeded setGeometrySize; split <;> rfl

@[simp] lemma resize_indexData (b : Batch) (g : Geometry) :
    (resizeSpaceIfNeeded b g).indexData = b.indexData := by
  unfold resizeSpaceIfNeeded setGeometrySize; split <;> rfl

@[simp] lemma resize_geometryInitialized (b : Batch) (g : Geometry) :
    (resizeSpaceIfNeeded b g).geometryInitialized = b.geometryInitialized := by
  unfold resizeSpaceIfNeeded setGeometrySize; split <;> rfl

/-- `addGeometry` when `_validateGeometry` throws: the (possibly freshly
initialised) state is returned untouched. -/
lemma addGeometry_run_valErr (b : Batch) (g : Geometry) (rv ri : ℤ) (e : JsErr)
    (hval : validateGeometry (initGeometry b g) g = Except.error e) :
    addGeometry b g rv ri = (initGeometry b g, Except.error e) := by
  simp only [addGeometry, hval]

/-- `addGeometry` when the payload has no `position` attribute: TypeError
after the (state-preserving) resize. -/
lemma addGeometry_run_noPos (b : Batch) (g : Geometry) (rv ri : ℤ)
    (hval : validateGeometry (initGeometry b g) g = Except.ok ())
    (hpos : alookup g.attributes AttrName.position = none) :
    addGeometry b g rv ri =
      (resizeSpaceIfNeeded (initGeometry b g) (fillBounds g), Except.error JsErr.typeError) := by
  simp only [addGeometry, hval, fillBounds_attributes, hpos]

/-- `addGeometry` when the reservation exceeds the (post-resize) capacity. -/
lemma addGeometry_run_capErr (b : Batch) (g : Geometry) (rv ri : ℤ) (pos : BufferAttr)
    (hval : validateGeometry (initGeometry b g) g = Except.ok ())
    (hpos : alookup g.attributes AttrName.position = some pos)
    (hcap : reservedExceeds (resizeSpaceIfNeeded (initGeometry b g) (fillBounds g))
      (addInfo0 (resizeSpaceIfNeeded (initGeometry b g) (fillBounds g)) (fillBounds g)
        pos rv ri)) :
    addGeometry b g rv ri =
      (resizeSpaceIfNeeded (initGeometry b g) (fillBounds g),
        Except.error JsErr.reservedExceedsMax) := by
  simp only [addGeometry, hval, fillBounds_attributes, hpos, if_pos hcap]

/-- `addGeometry` on the reuse path: the lowest available id is shifted off
the sorted free list, the region record installed, and the rest handed to
`setGeometryAt`. -/
lemma addGeometry_run_reuse (b : Batch) (g : Geometry) (rv ri : ℤ) (pos : BufferAttr)
    (gid : ℕ) (rest : List ℕ)
    (hval : validateGeometry (initGeometry b g) g = Except.ok ())
    (hpos : alookup g.attributes AttrName.position = some pos)
    (hcap : ¬ reservedExceeds (resizeSpaceIfNeeded (initGeometry b g) (fillBounds g))
      (addInfo0 (resizeSpaceIfNeeded (initGeometry b g) (fillBounds g)) (fillBounds g)
        pos rv ri))
    (hsort : (resizeSpaceIfNeeded (initGeometry b g)
        (fillBounds g)).availableGeometryIds.insertionSort (fun x y => x ≤ y) =
      gid :: rest) :
    addGeometry b g rv ri =
      (let b2 := resizeSpaceIfNeeded (initGeometry b g) (fillBounds g)
       let info0 := addInfo0 b2 (fillBounds g) pos rv ri
       let b3 : Batch := { b2 with
         availableGeometryIds := rest
         geometryInfo := b2.geometryInfo.set gid info0 }
       match setGeometryAt b3 (gid : ℤ) (fillBounds g) with
       | (b4, Except.error e) => (b4, Except.error e)
       | (b4, Except.ok _) =>
         ({ b4 with
             nextIndexStart := info0.indexStart + info0.reservedIndexCount
             nextVertexStart := info0.vertexStart + info0.reservedVertexCount },
          Except.ok (gid : ℤ))) := by
  simp only [addGeometry, hval, fillBounds_attributes, hpos, if_neg hcap, hsort]

/-- `addGeometry` on the append path (empty free list): a new slot is
appended, the count incremented, and the rest handed to `setGeometryAt`. -/
lemma addGeometry_run_append (b : Batch) (g : Geometry) (rv ri : ℤ) (pos : BufferAttr)
    (hval : validateGeometry (initGeometry b g) g = Except.ok ())
    (hpos : alookup g.attributes AttrName.position = some pos)
    (hcap : ¬ reservedExceeds (resizeSpaceIfNeeded (initGeometry b g) (fillBounds g))
      (addInfo0 (resizeSpaceIfNeeded (initGeometry b g) (fillBounds g)) (fillBounds g)
        pos rv ri))
    (hsort : (resizeSpaceIfNeeded (initGeometry b g)
        (fillBounds g)).availableGeometryIds.insertionSort (fun x y => x ≤ y) = []) :
    addGeometry b g rv ri =
      (let b2 := resizeSpaceIfNeeded (initGeometry b g) (fillBounds g)
       let info0 := addInfo0 b2 (fillBounds g) pos rv ri
       let b3 : Batch := { b2 with
         geometryCount := b2.geometryCount + 1
         geometryInfo := b2.geometryInfo ++ [info0] }
       match setGeometryAt b3 (b2.geometryCount : ℤ) (fillBounds g) with
       | (b4, Except.error e) => (b4, Except.error e)
       | (b4, Except.ok _) =>
         ({ b4 with
             nextIndexStart := info0.indexStart + info0.reservedIndexCount
             nextVertexStart := info0.vertexStart + info0.reservedVertexCount },
          Except.ok (b2.geometryCount : ℤ))) := by
  simp only [addGeometry, hval, fillBounds_attributes, hpos, if_neg hcap, hsort]

lemma validateGeometry_ok_index (b : Batch) (g : Geometry)
    (h : validateGeometry b g = Except.ok ()) : g.index.isSome = b.indexData.isSome := by
  by_contra hne
  unfold validateGeometry at h
  rw [if_pos hne] at h
  cases h

lemma srcIndexCountOf_fillBounds (g : Geometry) :
    srcIndexCountOf (fillBounds g) = srcIndexCountOf g := rfl

@[simp] lemma addInfo0_vertexStart (b2 : Batch) (g1 : Geometry) (pos : BufferAttr)
    (rv ri : ℤ) : (addInfo0 b2 g1 pos rv ri).vertexStart = b2.nextVertexStart := rfl

@[simp] lemma addInfo0_active (b2 : Batch) (g1 : Geometry) (pos : BufferAttr)
    (rv ri : ℤ) : (addInfo0 b2 g1 pos rv ri).active = true := rfl

@[simp] lemma addInfo0_reservedVertexCount_default (b2 : Batch) (g1 : Geometry)
    (pos : BufferAttr) (ri : ℤ) :
    (addInfo0 b2 g1 pos (-1) ri).reservedVertexCount = (pos.count : ℤ) := by
  simp [addInfo0]

lemma addInfo0_reservedIndexCount_default (b2 : Batch) (g1 : Geometry)
    (pos : BufferAttr) (rv : ℤ) (idx : IndexAttr) (hidx : g1.index = some idx) :
    (addInfo0 b2 g1 pos rv (-1)).reservedIndexCount = (idx.count : ℤ) := by
  simp [addInfo0, hidx]

/-- On a well-formed initialised batch, `addGeometry` with default
reservations, a schema-matching payload with a `position` attribute, and a
passing capacity check fully succeeds: the handle is the least free id (or
the appended one), and the final state is the `setGeometryAt` write-back
with the cursors advanced over the new region. -/
lemma addGeometry_defaults_ok (b : Batch) (g : Geometry) (pos : BufferAttr)
    (hWF : WF b) (hinit : b.geometryInitialized = true)
    (hval0 : validateGeometry b g = Except.ok ())
    (hpos : alookup g.attributes AttrName.position = some pos)
    (hcap : ¬ reservedExceeds (resizeSpaceIfNeeded b (fillBounds g))
      (addInfo0 (resizeSpaceIfNeeded b (fillBounds g)) (fillBounds g) pos (-1) (-1))) :
    ∃ gidN : ℕ,
      ((b.availableGeometryIds ≠ [] ∧ gidN ∈ b.availableGeometryIds ∧
          (∀ x ∈ b.availableGeometryIds, gidN ≤ x)) ∨
        (b.availableGeometryIds = [] ∧ gidN = b.geometryCount)) ∧
      (addGeometry b g (-1) (-1)).2 = Except.ok (gidN : ℤ) ∧
      (let R := resizeSpaceIfNeeded b (fillBounds g)
      let info0 := addInfo0 R (fillBounds g) pos (-1) (-1)
      let info2 := setInfoUpdate b.indexData.isSome g.index info0 pos.count
        (fillBounds g).boundingBox (fillBounds g).boundingSphere
      (addGeometry b g (-1) (-1)).1.attrs = b.attrs.map (setAttrWrite (fillBounds g) info0) ∧
      (addGeometry b g (-1) (-1)).1.indexData = setIndexWrite b.indexData (fillBounds g) info0 ∧
      (addGeometry b g (-1) (-1)).1.nextVertexStart =
        info0.vertexStart + info0.reservedVertexCount ∧
      (addGeometry b g (-1) (-1)).1.nextIndexStart =
        info0.indexStart + info0.reservedIndexCount ∧
      (addGeometry b g (-1) (-1)).1.maxVertexCount = R.maxVertexCount ∧
      (addGeometry b g (-1) (-1)).1.maxIndexCount = R.maxIndexCount ∧
      ((b.availableGeometryIds ≠ [] ∧
        (addGeometry b g (-1) (-1)).1.geometryCount = b.geometryCount ∧
        (addGeometry b g (-1) (-1)).1.availableGeometryIds =
          (b.availableGeometryIds.insertionSort (fun x y => x ≤ y)).tail ∧
        (addGeometry b g (-1) (-1)).1.geometryInfo =
          (b.geometryInfo.set gidN info0).set gidN info2) ∨
       (b.availableGeometryIds = [] ∧
        (addGeometry b g (-1) (-1)).1.geometryCount = b.geometryCount + 1 ∧
        (addGeometry b g (-1) (-1)).1.availableGeometryIds = b.availableGeometryIds ∧
        (addGeometry b g (-1) (-1)).1.geometryInfo =
          (b.geometryInfo ++ [info0]).set gidN info2))) := by
  have hb1 : initGeometry b g = b := initGeometry_of_initialized b g hinit
  have hval : validateGeometry (initGeometry b g) g = Except.ok () := by
    rw [hb1]; exact hval0
  have hcap' : ¬ reservedExceeds (resizeSpaceIfNeeded (initGeometry b g) (fillBounds g))
      (addInfo0 (resizeSpaceIfNeeded (initGeometry b g) (fillBounds g)) (fillBounds g)
        pos (-1) (-1)) := by
    rw [hb1]; exact hcap
  have hvc : (pos.count : ℤ) ≤
      (addInfo0 (resizeSpaceIfNeeded b (fillBounds g)) (fillBounds g)
        pos (-1) (-1)).reservedVertexCount := by
    simp
  have hposF : alookup (fillBounds g).attributes AttrName.position = some pos := hpos
  have hic : b.indexData.isSome = true →
      srcIndexCountOf (fillBounds g) ≤
      (addInfo0 (resizeSpaceIfNeeded b (fillBounds g)) (fillBounds g)
        pos (-1) (-1)).reservedIndexCount := by
    intro hsome
    have hgidx : g.index.isSome = true := by
      rw [validateGeometry_ok_index b g hval0]; exact hsome
    rcases Option.isSome_iff_exists.mp hgidx with ⟨idx, hgi⟩
    rw [addInfo0_reservedIndexCount_default _ _ _ _ idx (by simpa using hgi),
      srcIndexCountOf_fillBounds]
    simp [srcIndexCountOf, hgi]
  rcases hsort : b.availableGeometryIds.insertionSort (fun x y => x ≤ y) with _ | ⟨gid, rest⟩
  · -- append path
    have hsort' : (resizeSpaceIfNeeded (initGeometry b g)
        (fillBounds g)).availableGeometryIds.insertionSort (fun x y => x ≤ y) = [] := by
      rw [hb1, resize_availableGeometryIds]; exact hsort
    have havail : b.availableGeometryIds = [] :=
      List.Perm.eq_nil (hsort ▸ (List.perm_insertionSort (fun x y => x ≤ y)
        b.availableGeometryIds).symm)
    have heq := addGeometry_run_append b g (-1) (-1) pos hval hpos hcap' hsort'
    rw [hb1] at heq
    dsimp only at heq
    have hset := setGeometryAt_ok
      { resizeSpaceIfNeeded b (fillBounds g) with
        geometryCount := (resizeSpaceIfNeeded b (fillBounds g)).geometryCount + 1
        geometryInfo := (resizeSpaceIfNeeded b (fillBounds g)).geometryInfo ++
          [addInfo0 (resizeSpaceIfNeeded b (fillBounds g)) (fillBounds g) pos (-1) (-1)] }
      ((resizeSpaceIfNeeded b (fillBounds g)).geometryCount : ℤ) (fillBounds g)
      (addInfo0 (resizeSpaceIfNeeded b (fillBounds g)) (fillBounds g) pos (-1) (-1)) pos
      (by exact_mod_cast Nat.lt_succ_self _)
      (Int.ofNat_nonneg _)
      ((validateGeometry_congr b _ g (fillBounds g) (by simp) (by simp) rfl rfl).trans hval0)
      (by
        rw [Int.toNat_natCast]
        show ((resizeSpaceIfNeeded b (fillBounds g)).geometryInfo ++ [_]).get?
          (resizeSpaceIfNeeded b (fillBounds g)).geometryCount = _
        rw [resize_geometryInfo, resize_geometryCount, ← hWF.1]
        rw [List.get?_eq_getElem?]
        exact List.getElem?_concat_length _ _)
      hposF
      (fun hsome => hic (by simpa using hsome))
      hvc
    rw [hset] at heq
    dsimp only at heq
    refine ⟨b.geometryCount, Or.inr ⟨havail, rfl⟩, ?_, ?_⟩
    · rw [heq]
      simp
    · rw [heq]
      refine ⟨by simp, by simp, by simp, by simp, by simp, by simp, Or.inr ⟨havail, ?_, ?_, ?_⟩⟩
      · simp
      · simp [havail]
      · simp
  · -- reuse path
    have hsort' : (resizeSpaceIfNeeded (initGeometry b g)
        (fillBounds g)).availableGeometryIds.insertionSort (fun x y => x ≤ y) =
        gid :: rest := by
      rw [hb1, resize_availableGeometryIds]; exact hsort
    have hmem : gid ∈ b.availableGeometryIds := by
      have hm : gid ∈ b.availableGeometryIds.insertionSort (fun x y => x ≤ y) := by
        rw [hsort]; exact List.mem_cons_self _ _
      exact (List.perm_insertionSort (fun x y => x ≤ y) b.availableGeometryIds).subset hm
    have hne : b.availableGeometryIds ≠ [] := by
      intro hnil
      rw [hnil] at hsort
      simp [List.insertionSort] at hsort
    have hlow : ∀ x ∈ b.availableGeometryIds, gid ≤ x := by
      intro x hx
      have hx' : x ∈ b.availableGeometryIds.insertionSort (fun x y => x ≤ y) :=
        ((List.perm_insertionSort (fun x y => x ≤ y) b.availableGeometryIds).symm).subset hx
      rw [hsort] at hx'
      rcases List.mem_cons.mp hx' with hx1 | hx2
      · exact le_of_eq hx1.symm
      · have hsorted : List.Sorted (fun x y => x ≤ y)
            (b.availableGeometryIds.insertionSort (fun x y => x ≤ y)) :=
          List.sorted_insertionSort _ _
        rw [hsort] at hsorted
        exact (List.sorted_cons.mp hsorted).1 x hx2
    have hlen : gid < b.geometryInfo.length := (hWF.2.2.1 gid hmem).1
    have heq := addGeometry_run_reuse b g (-1) (-1) pos gid rest hval hpos hcap' hsort'
    rw [hb1] at heq
    dsimp only at heq
    have hset := setGeometryAt_ok
      { resizeSpaceIfNeeded b (fillBounds g) with
        availableGeometryIds := rest
        geometryInfo := (resizeSpaceIfNeeded b (fillBounds g)).geometryInfo.set gid
          (addInfo0 (resizeSpaceIfNeeded b (fillBounds g)) (fillBounds g) pos (-1) (-1)) }
      (gid : ℤ) (fillBounds g)
      (addInfo0 (resizeSpaceIfNeeded b (fillBounds g)) (fillBounds g) pos (-1) (-1)) pos
      (by
        show (gid : ℤ) < ((resizeSpaceIfNeeded b (fillBounds g)).geometryCount : ℤ)
        rw [resize_geometryCount]
        exact_mod_cast hWF.1 ▸ hlen)
      (Int.ofNat_nonneg _)
      ((validateGeometry_congr b _ g (fillBounds g) (by simp) (by simp) rfl rfl).trans hval0)
      (by
        rw [Int.toNat_natCast]
        show ((resizeSpaceIfNeeded b (fillBounds g)).geometryInfo.set gid _).get? gid = _
        rw [resize_geometryInfo, List.get?_eq_getElem?, List.getElem?_set_self',
          List.getElem?_eq_getElem hlen]
        rfl)
      hposF
      (fun hsome => hic (by simpa using hsome))
      hvc
    rw [hset] at heq
    dsimp only at heq
    refine ⟨gid, Or.inl ⟨hne, hmem, hlow⟩, ?_, ?_⟩
    · rw [heq]
    · rw [heq]
      refine ⟨by simp, by simp, by simp, by simp, by simp, by simp, Or.inl ⟨hne, ?_, ?_, ?_⟩⟩
      · simp
      · simp [hsort]
      · simp

/-- C5: Amended atomicity.  `setGeometryAt` and `deleteGeometry` are atomic:
whenever either throws, the returned state is exactly the input state.  For
`addGeometry`, the validation-failure path is atomic — an initialised batch
whose `_validateGeometry` rejects the payload is returned untouched.  (The
reserved-space-too-small path of `addGeometry` is *not* atomic: the
counterexample shows the region table, geometry count and free list already
mutated when that error is thrown.) -/
theorem c5_atomicity_amended :
    (∀ (b : Batch) (h : ℤ) (g : Geometry) (e : JsErr),
      (setGeometryAt b h g).2 = Except.error e → (setGeometryAt b h g).1 = b) ∧
    (∀ (b : Batch) (h : ℤ) (e : JsErr),
      (deleteGeometry b h).2 = Except.error e → (deleteGeometry b h).1 = b) ∧
    (∀ (b : Batch) (g : Geometry) (rv ri : ℤ) (e : JsErr),
      b.geometryInitialized = true → validateGeometry b g = Except.error e →
      addGeometry b g rv ri = (b, Except.error e)) := by
  refine ⟨?_, ?_, ?_⟩
  · intro b h g e herr
    rcases setGeometryAt_state b h g with h1 | h2
    · exact h1
    · rw [herr] at h2; exact absurd h2 (by simp)
  · intro b h e herr
    rcases deleteGeometry_state b h with h1 | h2
    · exact h1
    · rw [herr] at h2; exact absurd h2 (by simp)
  · intro b g rv ri e hinit hval
    have hb1 := initGeometry_of_initialized b g hinit
    have hrun := addGeometry_run_valErr b g rv ri e (by rw [hb1]; exact hval)
    rw [hb1] at hrun
    exact hrun

/-- Witness for C5 at concrete inputs: an out-of-range `setGeometryAt`, a
negative-handle `deleteGeometry` and an `addGeometry` whose payload fails
validation all leave the one-region state `c9s1` exactly as it was. -/
theorem c5_atomicity_witness :
    (setGeometryAt c9s1 5 c9g2).1 = c9s1 ∧
    (deleteGeometry c9s1 (-1)).1 = c9s1 ∧
    addGeometry c9s1 emptyGeom (-1) (-1) =
      (c9s1, Except.error (JsErr.missingAttribute AttrName.position)) :=
  ⟨c5_atomicity_amended.1 c9s1 5 c9g2 JsErr.maxGeometryCount
      (by with_unfolding_all decide),
   c5_atomicity_amended.2.1 c9s1 (-1) JsErr.typeError
      (by with_unfolding_all decide),
   c5_atomicity_amended.2.2 c9s1 emptyGeom (-1) (-1)
      (JsErr.missingAttribute AttrName.position)
      (by with_unfolding_all decide) (by with_unfolding_all decide)⟩

lemma addInfo0_indexStart (b2 : Batch) (g1 : Geometry) (pos : BufferAttr) (rv ri : ℤ) :
    (addInfo0 b2 g1 pos rv ri).indexStart =
      if g1.index.isSome then b2.nextIndexStart else -1 := rfl

/-- `setAttrWrite` preserves the attribute name. -/
lemma setAttrWrite_fst (g : Geometry) (info : GeoInfo) (p : AttrName × BatchAttr) :
    (setAttrWrite g info p).1 = p.1 := by
  unfold setAttrWrite
  split
  · rfl
  · rfl

lemma alookup_cons {β : Type} (k : AttrName) (v : β) (rest : List (AttrName × β))
    (nm : AttrName) :
    alookup ((k, v) :: rest) nm = if k = nm then some v else alookup rest nm := rfl

/-- Looking a name up after the `setGeometryAt` attribute-write pass finds
the written version of what the name found before. -/
lemma alookup_map_setAttrWrite (g : Geometry) (info : GeoInfo)
    (l : List (AttrName × BatchAttr)) (nm : AttrName) :
    alookup (l.map (setAttrWrite g info)) nm =
      (alookup l nm).map (fun a => (setAttrWrite g info (nm, a)).2) := by
  induction l with
  | nil => rfl
  | cons p rest ih =>
    rcases p with ⟨k, a⟩
    obtain ⟨b2, hhead⟩ : ∃ b2, setAttrWrite g info (k, a) = (k, b2) := by
      unfold setAttrWrite
      split
      · exact ⟨_, rfl⟩
      · exact ⟨a, rfl⟩
    rw [List.map_cons, hhead, alookup_cons, alookup_cons]
    by_cases hk : k = nm
    · subst hk
      rw [if_pos rfl, if_pos rfl]
      simp only [Option.map_some']
      rw [hhead]
    · rw [if_neg hk, if_neg hk, ih]

/-- The attribute write of `setGeometryAt` is a frame below the region it
targets: bytes strictly below `vertexStart * itemSize` are untouched. -/
lemma setAttrWrite_frame (g : Geometry) (info : GeoInfo) (p : AttrName × BatchAttr)
    (s : BufferAttr) (hs : alookup g.attributes p.1 = some s) (n : ℕ)
    (hn : (n : ℤ) < info.vertexStart * (s.itemSize : ℤ)) :
    (setAttrWrite g info p).2.data n = p.2.data n := by
  simp only [setAttrWrite, hs]
  simp only [zeroPad, copyAttributeData]
  have hvs : info.vertexStart * (s.itemSize : ℤ) ≤
      (info.vertexStart + (s.count : ℤ)) * (s.itemSize : ℤ) :=
    mul_le_mul_of_nonneg_right (by linarith [Int.ofNat_nonneg s.count])
      (Int.ofNat_nonneg s.itemSize)
  split
  · rename_i hcond
    exact absurd (le_trans hvs hcond.1) (not_le.mpr hn)
  · split
    · rename_i hcond
      exact absurd hcond.1 (not_le.mpr hn)
    · rfl

/-- The index write of `setGeometryAt` is a frame below the region it
targets: entries strictly below `indexStart` are untouched. -/
lemma setIndexWrite_frame (idx : Option (ℕ → ℤ)) (g : Geometry) (info : GeoInfo)
    (arr : ℕ → ℤ) (hidx : idx = some arr) :
    ∃ arr', setIndexWrite idx g info = some arr' ∧
      ∀ n : ℕ, (n : ℤ) < info.indexStart → arr' n = arr n := by
  subst hidx
  cases hg : g.index with
  | none => exact ⟨arr, by simp only [setIndexWrite, hg], fun n _ => rfl⟩
  | some srcIdx =>
    refine ⟨padIndexRange (writeIndexRange arr srcIdx info.indexStart info.vertexStart)
      info.indexStart (srcIdx.count : ℤ) info.reservedIndexCount info.vertexStart,
      by simp only [setIndexWrite, hg], ?_⟩
    intro n hn
    simp only [padIndexRange, writeIndexRange]
    split
    · rename_i hcond
      exact absurd
        (le_trans (le_add_of_nonneg_right (Int.ofNat_nonneg srcIdx.count)) hcond.1)
        (not_le.mpr hn)
    · split
      · rename_i hcond
        exact absurd hcond.1 (not_le.mpr hn)
      · rfl

/-- A passing `_validateGeometry` means the attribute loop passed. -/
lemma validateGeometry_ok_attrs (b : Batch) (g : Geometry)
    (h : validateGeometry b g = Except.ok ()) : validateAttrs g b.attrs = Except.ok () := by
  unfold validateGeometry at h
  split at h
  · exact absurd h (by simp)
  · exact h

/-- A passing attribute loop means every batch attribute has a payload
counterpart of the same `itemSize`. -/
lemma validateAttrs_lookup (g : Geometry) (l : List (AttrName × BatchAttr))
    (h : validateAttrs g l = Except.ok ()) (nm : AttrName) (a : BatchAttr)
    (hl : alookup l nm = some a) :
    ∃ s, alookup g.attributes nm = some s ∧ s.itemSize = a.itemSize := by
  induction l with
  | nil => exact absurd hl (by simp [alookup])
  | cons p rest ih =>
    rcases p with ⟨k, a'⟩
    simp only [validateAttrs] at h
    split at h
    · exact absurd h (by simp)
    · rename_i s hks
      split at h
      · exact absurd h (by simp)
      · rename_i hfmt
        push_neg at hfmt
        simp only [alookup] at hl
        by_cases hk : k = nm
        · subst hk
          rw [if_pos rfl] at hl
          obtain rfl : a' = a := by injection hl
          exact ⟨s, hks, hfmt.1⟩
        · rw [if_neg hk] at hl
          exact ih h hl

/-- C4: On an insufficient tail, `_resizeSpaceIfNeeded` grows each dimension
independently to `(old_capacity + incoming_count) * 1.5` (stated over any
state with nonnegative capacities), and a default-reservation `addGeometry`
on a well-formed initialised batch that passes the post-growth capacity
check succeeds with every previously-inserted live region's buffer data —
vertex attributes and index entries over the region's reserved range —
unchanged. -/
theorem c4_growth_preserves_data :
    (∀ (b : Batch) (g : Geometry) (p : BufferAttr),
      alookup g.attributes AttrName.position = some p → 0 ≤ b.maxVertexCount →
      (resizeSpaceIfNeeded b g).maxVertexCount =
        (if b.maxVertexCount - (b.nextVertexStart : ℚ) < (p.count : ℚ) then
          (b.maxVertexCount + (p.count : ℚ)) * (3 / 2)
        else b.maxVertexCount)) ∧
    (∀ (b : Batch) (g : Geometry) (idx : IndexAttr),
      g.index = some idx → 0 ≤ b.maxIndexCount →
      (resizeSpaceIfNeeded b g).maxIndexCount =
        (if b.maxIndexCount - (b.nextIndexStart : ℚ) < (idx.count : ℚ) then
          (b.maxIndexCount + (idx.count : ℚ)) * (3 / 2)
        else b.maxIndexCount)) ∧
    (∀ (b : Batch) (g : Geometry) (pos : BufferAttr),
      WF b → b.geometryInitialized = true →
      validateGeometry b g = Except.ok () →
      alookup g.attributes AttrName.position = some pos →
      ¬ reservedExceeds (resizeSpaceIfNeeded b (fillBounds g))
        (addInfo0 (resizeSpaceIfNeeded b (fillBounds g)) (fillBounds g) pos (-1) (-1)) →
      (∃ gid : ℤ, (addGeometry b g (-1) (-1)).2 = Except.ok gid) ∧
      (∀ i, i < b.geometryInfo.length → (infoAt b i).active = true →
        (∀ nm a, alookup b.attrs nm = some a →
          ∃ a', alookup (addGeometry b g (-1) (-1)).1.attrs nm = some a' ∧
            ∀ n : ℕ, (infoAt b i).vertexStart * (a.itemSize : ℤ) ≤ (n : ℤ) →
              (n : ℤ) < ((infoAt b i).vertexStart + (infoAt b i).reservedVertexCount) *
                (a.itemSize : ℤ) →
              a'.data n = a.data n) ∧
        (∀ arr, b.indexData = some arr →
          ∃ arr', (addGeometry b g (-1) (-1)).1.indexData = some arr' ∧
            ∀ n : ℕ, (infoAt b i).indexStart ≤ (n : ℤ) →
              (n : ℤ) < (infoAt b i).indexStart + (infoAt b i).reservedIndexCount →
              arr' n = arr n))) := by
  refine ⟨?_, ?_, ?_⟩
  · intro b g p hp h0
    unfold resizeSpaceIfNeeded
    split
    · simp only [setGeometrySize, newMaxVertexOf, hp]
    · rename_i hng
      push_neg at hng
      by_cases hc : b.maxVertexCount - (b.nextVertexStart : ℚ) < (p.count : ℚ)
      · rw [if_pos hc]
        have hform : newMaxVertexOf b g = (b.maxVertexCount + (p.count : ℚ)) * (3 / 2) := by
          simp only [newMaxVertexOf, hp, if_pos hc]
        have hgrow := hform ▸ hng.2
        have hcnn : (0 : ℚ) ≤ (p.count : ℚ) := by positivity
        have hexp : (b.maxVertexCount + (p.count : ℚ)) * (3 / 2) =
            b.maxVertexCount * (3 / 2) + (p.count : ℚ) * (3 / 2) := by ring
        rw [hexp] at hgrow ⊢
        linarith
      · rw [if_neg hc]
  · intro b g idx hgi h0
    unfold resizeSpaceIfNeeded
    split
    · simp only [setGeometrySize, newMaxIndexOf, hgi]
    · rename_i hng
      push_neg at hng
      by_cases hc : b.maxIndexCount - (b.nextIndexStart : ℚ) < (idx.count : ℚ)
      · rw [if_pos hc]
        have hform : newMaxIndexOf b g = (b.maxIndexCount + (idx.count : ℚ)) * (3 / 2) := by
          simp only [newMaxIndexOf, hgi, if_pos hc]
        have hgrow := hform ▸ hng.1
        have hcnn : (0 : ℚ) ≤ (idx.count : ℚ) := by positivity
        have hexp : (b.maxIndexCount + (idx.count : ℚ)) * (3 / 2) =
            b.maxIndexCount * (3 / 2) + (idx.count : ℚ) * (3 / 2) := by ring
        rw [hexp] at hgrow ⊢
        linarith
      · rw [if_neg hc]
  · intro b g pos hWF hinit hval hpos hcap
    obtain ⟨gid, halloc, hok, hproj⟩ := addGeometry_defaults_ok b g pos hWF hinit hval hpos hcap
    obtain ⟨hattrs, hidx, hnv, hni, hmv, hmi, hbr⟩ := hproj
    refine ⟨⟨(gid : ℤ), hok⟩, ?_⟩
    intro i hi hact
    have hreg := hWF.2.2.2.2.2.1 i hi hact
    constructor
    · intro nm a ha
      have hlk2 : alookup ((addGeometry b g (-1) (-1)).1.attrs) nm =
          some ((setAttrWrite (fillBounds g)
            (addInfo0 (resizeSpaceIfNeeded b (fillBounds g)) (fillBounds g) pos (-1) (-1))
            (nm, a)).2) := by
        rw [hattrs, alookup_map_setAttrWrite, ha, Option.map_some']
      refine ⟨_, hlk2, ?_⟩
      intro n h1 h2
      cases hsg : alookup (fillBounds g).attributes nm with
      | none => simp only [setAttrWrite, hsg]
      | some s =>
        have hsz : s.itemSize = a.itemSize := by
          obtain ⟨s', hs', hsz'⟩ := validateAttrs_lookup g b.attrs
            (validateGeometry_ok_attrs b g hval) nm a ha
          have hss : s' = s := by
            have hsg' : alookup g.attributes nm = some s := hsg
            rw [hsg'] at hs'
            injection hs'.symm
          rw [← hss]
          exact hsz'
        apply setAttrWrite_frame (fillBounds g) _ (nm, a) s hsg n
        have hvs0 : (addInfo0 (resizeSpaceIfNeeded b (fillBounds g)) (fillBounds g)
            pos (-1) (-1)).vertexStart = b.nextVertexStart := by simp
        rw [hvs0, hsz]
        have hmul : ((infoAt b i).vertexStart + (infoAt b i).reservedVertexCount) *
            ((a.itemSize : ℤ)) ≤ b.nextVertexStart * (a.itemSize : ℤ) :=
          mul_le_mul_of_nonneg_right hreg.2.2.2.1 (Int.ofNat_nonneg _)
        linarith
    · intro arr harr
      have hsome : b.indexData.isSome = true := by rw [harr]; rfl
      have hgi : (fillBounds g).index.isSome = true := by
        have hvi := validateGeometry_ok_index b g hval
        show g.index.isSome = true
        rw [hvi]
        exact hsome
      have his0 : (addInfo0 (resizeSpaceIfNeeded b (fillBounds g)) (fillBounds g)
          pos (-1) (-1)).indexStart = b.nextIndexStart := by
        rw [addInfo0_indexStart, if_pos hgi]
        simp
      obtain ⟨arr', hset, hfr⟩ := setIndexWrite_frame b.indexData (fillBounds g)
        (addInfo0 (resizeSpaceIfNeeded b (fillBounds g)) (fillBounds g) pos (-1) (-1))
        arr harr
      refine ⟨arr', by rw [hidx]; exact hset, ?_⟩
      intro n h1 h2
      apply hfr
      rw [his0]
      have hend := (hreg.2.2.2.2 hsome).2.2.2
      linarith

/-- Witness for C4 at a concrete input: on the capacity-4 batch `c4s1`
(2 vertices used) the 4-vertex payload forces vertex capacity `(4+4)*1.5 =
12` and the insertion succeeds. -/
theorem c4_growth_witness :
    (resizeSpaceIfNeeded c4s1 (fillBounds c4g2)).maxVertexCount = 12 ∧
    (∃ gid : ℤ, (addGeometry c4s1 c4g2 (-1) (-1)).2 = Except.ok gid) := by
  constructor
  · exact (c4_growth_preserves_data.1 c4s1 (fillBounds c4g2)
        (posAttr [3, 3, 3, 4, 4, 4, 5, 5, 5, 6, 6, 6])
        (by with_unfolding_all rfl) (by with_unfolding_all decide)).trans
      (by with_unfolding_all decide)
  · exact (c4_growth_preserves_data.2.2 c4s1 c4g2
        (posAttr [3, 3, 3, 4, 4, 4, 5, 5, 5, 6, 6, 6])
        (by with_unfolding_all decide) (by with_unfolding_all decide)
        (by with_unfolding_all decide) (by with_unfolding_all rfl)
        (by with_unfolding_all decide)).1

lemma infoAt_out (b : Batch) (i : ℕ) (h : b.geometryInfo.length ≤ i) :
    infoAt b i = dummyInfo := by
  unfold infoAt
  rw [List.getD_eq_getElem?_getD, List.getElem?_eq_none_iff.mpr h]
  rfl

lemma getD_set_ne {α : Type} (l : List α) (n k : ℕ) (a d : α) (h : k ≠ n) :
    (l.set n a).getD k d = l.getD k d := by
  rw [List.getD_eq_getElem?_getD, List.getD_eq_getElem?_getD,
    List.getElem?_set_ne (Ne.symm h)]

lemma getD_set_self {α : Type} (l : List α) (n : ℕ) (a d : α) (h : n < l.length) :
    (l.set n a).getD n d = a := by
  rw [List.getD_eq_getElem?_getD, List.getElem?_set_self', List.getElem?_eq_getElem h]
  rfl

lemma getD_append_lt {α : Type} (l l' : List α) (k : ℕ) (d : α) (h : k < l.length) :
    (l ++ l').getD k d = l.getD k d := by
  rw [List.getD_eq_getElem?_getD, List.getD_eq_getElem?_getD, List.getElem?_append,
    if_pos h]

/-- The index write of `setGeometryAt` never creates or drops the index
buffer. -/
lemma setIndexWrite_isSome (idx : Option (ℕ → ℤ)) (g : Geometry) (info : GeoInfo) :
    (setIndexWrite idx g info).isSome = idx.isSome := by
  unfold setIndexWrite
  cases idx <;> cases hg : g.index <;> rfl

/-- The region-table refresh of `setGeometryAt` never moves a region: the
reserved ranges and the active flag pass through unchanged. -/
lemma setInfoUpdate_frame (hasIndex : Bool) (srcIndex : Option IndexAttr)
    (info : GeoInfo) (posCount : ℕ) (bb : Option Box3) (bs : Option SphereQ) :
    (setInfoUpdate hasIndex srcIndex info posCount bb bs).vertexStart =
      info.vertexStart ∧
    (setInfoUpdate hasIndex srcIndex info posCount bb bs).reservedVertexCount =
      info.reservedVertexCount ∧
    (setInfoUpdate hasIndex srcIndex info posCount bb bs).indexStart =
      info.indexStart ∧
    (setInfoUpdate hasIndex srcIndex info posCount bb bs).reservedIndexCount =
      info.reservedIndexCount ∧
    (setInfoUpdate hasIndex srcIndex info posCount bb bs).active = info.active := by
  cases srcIndex <;> cases hasIndex <;> exact ⟨rfl, rfl, rfl, rfl, rfl⟩

/-- Out-of-range and inactive regions make `pairOk` vacuous, so the bounded
form of the invariant extends to all index pairs. -/
lemma pairOk_all (b : Batch)
    (h : ∀ i < b.geometryInfo.length, ∀ j < b.geometryInfo.length, pairOk b i j) :
    ∀ i j, pairOk b i j := by
  intro i j hne hai haj
  by_cases hi : i < b.geometryInfo.length
  · by_cases hj : j < b.geometryInfo.length
    · exact h i hi j hj hne hai haj
    · rw [infoAt_out b j (le_of_not_lt hj)] at haj
      exact absurd haj (by decide)
  · rw [infoAt_out b i (le_of_not_lt hi)] at hai
    exact absurd hai (by decide)

/-- `deleteGeometry` only deactivates a region, so disjointness of the
reserved ranges of active regions survives it. -/
lemma deleteGeometry_pairOk (b : Batch) (h : ℤ)
    (hpair : ∀ i < b.geometryInfo.length, ∀ j < b.geometryInfo.length, pairOk b i j) :
    ∀ i j, pairOk (deleteGeometry b h).1 i j := by
  have hall := pairOk_all b hpair
  intro i j
  unfold deleteGeometry
  split
  · exact hall i j
  · split
    · exact hall i j
    · split
      · exact hall i j
      · rename_i info hget
        split
        · exact hall i j
        · rename_i hact
          have hget' : b.geometryInfo[h.toNat]? = some info := by
            rw [← List.get?_eq_getElem?]
            exact hget
          have hlt : h.toNat < b.geometryInfo.length := (List.getElem?_eq_some.mp hget').1
          intro hne hai haj
          have hIA : ∀ k, infoAt
              ({ b with
                  geometryInfo := b.geometryInfo.set h.toNat
                    { info with active := false, visible := false },
                  availableGeometryIds :=
                    b.availableGeometryIds ++ [h.toNat] }, (Except.ok () : Except JsErr Unit)).1 k =
              (b.geometryInfo.set h.toNat
                { info with active := false, visible := false }).getD k dummyInfo := by
            intro k
            rfl
          rw [hIA i] at hai
          rw [hIA j] at haj
          rw [hIA i, hIA j]
          by_cases hih : i = h.toNat
          · subst hih
            rw [getD_set_self _ _ _ _ hlt] at hai
            exact absurd hai (by simp)
          · by_cases hjh : j = h.toNat
            · subst hjh
              rw [getD_set_self _ _ _ _ hlt] at haj
              exact absurd haj (by simp)
            · rw [getD_set_ne _ _ _ _ _ hih] at hai
              rw [getD_set_ne _ _ _ _ _ hjh] at haj
              rw [getD_set_ne _ _ _ _ _ hih, getD_set_ne _ _ _ _ _ hjh]
              exact hall i j hne hai haj

/-- A successful `setGeometryAt` rewrites a region's data in place — the
reserved ranges and active flags of the table are untouched — so reserved
disjointness survives it; failures leave the state unchanged. -/
lemma setGeometryAt_pairOk (b : Batch) (h : ℤ) (g : Geometry)
    (hpair : ∀ i < b.geometryInfo.length, ∀ j < b.geometryInfo.length, pairOk b i j) :
    ∀ i j, pairOk (setGeometryAt b h g).1 i j := by
  have hall := pairOk_all b hpair
  rcases setGeometryAt_state b h g with hst | hok
  · rw [hst]; exact hall
  · obtain ⟨-, -, -, -, info, pos, hget, -, -, -, heq⟩ := setGeometryAt_ok_inv b h g h hok
    have hget' : b.geometryInfo[h.toNat]? = some info := by
      rw [← List.get?_eq_getElem?]
      exact hget
    have hlt : h.toNat < b.geometryInfo.length := (List.getElem?_eq_some.mp hget').1
    have hbk : infoAt b h.toNat = info := by
      unfold infoAt
      rw [List.getD_eq_getElem?_getD, hget']
      rfl
    have hT : (setGeometryAt b h g).1.geometryInfo =
        b.geometryInfo.set h.toNat (setInfoUpdate b.indexData.isSome g.index info
          pos.count g.boundingBox g.boundingSphere) := by
      rw [heq]
    have hsome : (setGeometryAt b h g).1.indexData.isSome = b.indexData.isSome := by
      rw [heq]
      exact setIndexWrite_isSome b.indexData g info
    have hfields : ∀ k,
        (infoAt (setGeometryAt b h g).1 k).vertexStart = (infoAt b k).vertexStart ∧
        (infoAt (setGeometryAt b h g).1 k).reservedVertexCount =
          (infoAt b k).reservedVertexCount ∧
        (infoAt (setGeometryAt b h g).1 k).indexStart = (infoAt b k).indexStart ∧
        (infoAt (setGeometryAt b h g).1 k).reservedIndexCount =
          (infoAt b k).reservedIndexCount ∧
        (infoAt (setGeometryAt b h g).1 k).active = (infoAt b k).active := by
      intro k
      have hIA : infoAt (setGeometryAt b h g).1 k =
          (b.geometryInfo.set h.toNat (setInfoUpdate b.indexData.isSome g.index info
            pos.count g.boundingBox g.boundingSphere)).getD k dummyInfo := by
        unfold infoAt
        rw [hT]
      rw [hIA]
      by_cases hk : k = h.toNat
      · subst hk
        rw [getD_set_self _ _ _ _ hlt, hbk]
        exact setInfoUpdate_frame b.indexData.isSome g.index info pos.count
          g.boundingBox g.boundingSphere
      · rw [getD_set_ne _ _ _ _ _ hk]
        exact ⟨rfl, rfl, rfl, rfl, rfl⟩
    intro i j hne hai haj
    rw [(hfields i).2.2.2.2] at hai
    rw [(hfields j).2.2.2.2] at haj
    obtain ⟨hd1, hd2⟩ := hall i j hne hai haj
    constructor
    · rw [(hfields i).1, (hfields i).2.1, (hfields j).1, (hfields j).2.1]
      exact hd1
    · intro hs
      rw [hsome] at hs
      rw [(hfields i).2.2.1, (hfields i).2.2.2.1, (hfields j).2.2.1,
        (hfields j).2.2.2.1]
      exact hd2 hs

/-- Inserting a fresh region whose starts sit at the allocation cursors of a
well-formed batch keeps all reserved ranges disjoint: every live region ends
at or below the cursors. -/
lemma pairOk_newRegion (b b' : Batch) (gid : ℕ) (hWF : WF b)
    (hvs : (infoAt b' gid).vertexStart = b.nextVertexStart)
    (his : b.indexData.isSome = true → (infoAt b' gid).indexStart = b.nextIndexStart)
    (hother : ∀ k, k ≠ gid → infoAt b' k = infoAt b k)
    (hsome : b'.indexData.isSome = b.indexData.isSome) :
    ∀ i j, pairOk b' i j := by
  have hall := pairOk_all b (fun i hi j hj => hWF.2.2.2.2.2.2 i hi j hj)
  intro i j hne hai haj
  by_cases hig : i = gid
  · subst hig
    by_cases hjg : j = i
    · exact absurd hjg.symm hne
    · rw [hother j hjg] at haj
      have hjl : j < b.geometryInfo.length := by
        by_contra hjl
        rw [infoAt_out b j (le_of_not_lt hjl)] at haj
        exact absurd haj (by decide)
      have hreg := hWF.2.2.2.2.2.1 j hjl haj
      constructor
      · rw [hvs, hother j hjg]
        exact Or.inr hreg.2.2.2.1
      · intro hs
        rw [hsome] at hs
        rw [his hs, hother j hjg]
        exact Or.inr ((hreg.2.2.2.2 hs).2.2.2)
  · by_cases hjg : j = gid
    · subst hjg
      rw [hother i hig] at hai
      have hil : i < b.geometryInfo.length := by
        by_contra hil
        rw [infoAt_out b i (le_of_not_lt hil)] at hai
        exact absurd hai (by decide)
      have hreg := hWF.2.2.2.2.2.1 i hil hai
      constructor
      · rw [hvs, hother i hig]
        exact Or.inl hreg.2.2.2.1
      · intro hs
        rw [hsome] at hs
        rw [his hs, hother i hig]
        exact Or.inl ((hreg.2.2.2.2 hs).2.2.2)
    · rw [hother i hig] at hai
      rw [hother j hjg] at haj
      obtain ⟨hd1, hd2⟩ := hall i j hne hai haj
      constructor
      · rw [hother i hig, hother j hjg]
        exact hd1
      · intro hs
        rw [hsome] at hs
        rw [hother i hig, hother j hjg]
        exact hd2 hs

/-- C3: Amended.  Handle reuse picks the lowest available id (appending only
on an empty free list), and the disjointness of reserved ranges of distinct
active regions is maintained by `addGeometry` (default reservations, the new
region starting at the allocation cursors beyond every live region),
`deleteGeometry` and `setGeometryAt`.  (`optimize` does *not* maintain it:
its packing pass leaves stale `reservedCounts`, see the counterexample.) -/
theorem c3_reuse_disjointness_amended :
    (∀ (b : Batch) (g : Geometry) (pos : BufferAttr),
      WF b → b.geometryInitialized = true → validateGeometry b g = Except.ok () →
      alookup g.attributes AttrName.position = some pos →
      ¬ reservedExceeds (resizeSpaceIfNeeded b (fillBounds g))
        (addInfo0 (resizeSpaceIfNeeded b (fillBounds g)) (fillBounds g) pos (-1) (-1)) →
      ∃ gidN : ℕ,
        ((b.availableGeometryIds ≠ [] ∧ gidN ∈ b.availableGeometryIds ∧
            ∀ x ∈ b.availableGeometryIds, gidN ≤ x) ∨
          (b.availableGeometryIds = [] ∧ gidN = b.geometryCount)) ∧
        (addGeometry b g (-1) (-1)).2 = Except.ok (gidN : ℤ) ∧
        ∀ i j, pairOk (addGeometry b g (-1) (-1)).1 i j) ∧
    (∀ (b : Batch) (h : ℤ),
      (∀ i < b.geometryInfo.length, ∀ j < b.geometryInfo.length, pairOk b i j) →
      ∀ i j, pairOk (deleteGeometry b h).1 i j) ∧
    (∀ (b : Batch) (h : ℤ) (g : Geometry),
      (∀ i < b.geometryInfo.length, ∀ j < b.geometryInfo.length, pairOk b i j) →
      ∀ i j, pairOk (setGeometryAt b h g).1 i j) := by
  refine ⟨?_, deleteGeometry_pairOk, setGeometryAt_pairOk⟩
  intro b g pos hWF hinit hval hpos hcap
  obtain ⟨gid, halloc, hok, hproj⟩ := addGeometry_defaults_ok b g pos hWF hinit hval hpos hcap
  obtain ⟨hattrs, hidx, hnv, hni, hmv, hmi, hbr⟩ := hproj
  refine ⟨gid, halloc, hok, ?_⟩
  have hsome : (addGeometry b g (-1) (-1)).1.indexData.isSome = b.indexData.isSome := by
    rw [hidx]
    exact setIndexWrite_isSome ..
  have hfr := setInfoUpdate_frame b.indexData.isSome g.index
    (addInfo0 (resizeSpaceIfNeeded b (fillBounds g)) (fillBounds g) pos (-1) (-1))
    pos.count (fillBounds g).boundingBox (fillBounds g).boundingSphere
  have hvs2 : (setInfoUpdate b.indexData.isSome g.index
      (addInfo0 (resizeSpaceIfNeeded b (fillBounds g)) (fillBounds g) pos (-1) (-1))
      pos.count (fillBounds g).boundingBox (fillBounds g).boundingSphere).vertexStart =
      b.nextVertexStart := by
    rw [hfr.1]
    simp
  have his2 : b.indexData.isSome = true → (setInfoUpdate b.indexData.isSome g.index
      (addInfo0 (resizeSpaceIfNeeded b (fillBounds g)) (fillBounds g) pos (-1) (-1))
      pos.count (fillBounds g).boundingBox (fillBounds g).boundingSphere).indexStart =
      b.nextIndexStart := by
    intro hs
    rw [hfr.2.2.1, addInfo0_indexStart]
    have hgidx : (fillBounds g).index.isSome = true := by
      show g.index.isSome = true
      rw [validateGeometry_ok_index b g hval]
      exact hs
    rw [if_pos hgidx]
    simp
  rcases hbr with ⟨hnel, hcnt, hav, htab⟩ | ⟨hnil, hcnt, hav, htab⟩
  · -- reuse: the table was written twice at `gid`
    have hgl : gid < b.geometryInfo.length := by
      rcases halloc with ⟨-, hmem, -⟩ | ⟨hemp, -⟩
      · exact (hWF.2.2.1 gid hmem).1
      · exact absurd hemp hnel
    have htab' : (addGeometry b g (-1) (-1)).1.geometryInfo =
        b.geometryInfo.set gid (setInfoUpdate b.indexData.isSome g.index
          (addInfo0 (resizeSpaceIfNeeded b (fillBounds g)) (fillBounds g) pos (-1) (-1))
          pos.count (fillBounds g).boundingBox (fillBounds g).boundingSphere) := by
      rw [htab, List.set_set]
    have hgide : infoAt (addGeometry b g (-1) (-1)).1 gid =
        setInfoUpdate b.indexData.isSome g.index
          (addInfo0 (resizeSpaceIfNeeded b (fillBounds g)) (fillBounds g) pos (-1) (-1))
          pos.count (fillBounds g).boundingBox (fillBounds g).boundingSphere := by
      unfold infoAt
      rw [htab', getD_set_self _ _ _ _ hgl]
    have hother : ∀ k, k ≠ gid → infoAt (addGeometry b g (-1) (-1)).1 k = infoAt b k := by
      intro k hk
      unfold infoAt
      rw [htab', getD_set_ne _ _ _ _ _ hk]
    exact pairOk_newRegion b _ gid hWF (by rw [hgide]; exact hvs2)
      (fun hs => by rw [hgide]; exact his2 hs) hother hsome
  · -- append: the new slot sits at index `_geometryCount`
    have hgeq : gid = b.geometryInfo.length := by
      rcases halloc with ⟨hne', -, -⟩ | ⟨-, hg⟩
      · exact absurd hnil hne'
      · rw [hg, hWF.1]
    have hgl1 : gid < (b.geometryInfo ++
        [addInfo0 (resizeSpaceIfNeeded b (fillBounds g)) (fillBounds g)
          pos (-1) (-1)]).length := by
      rw [List.length_append, hgeq]
      simp
    have hgide : infoAt (addGeometry b g (-1) (-1)).1 gid =
        setInfoUpdate b.indexData.isSome g.index
          (addInfo0 (resizeSpaceIfNeeded b (fillBounds g)) (fillBounds g) pos (-1) (-1))
          pos.count (fillBounds g).boundingBox (fillBounds g).boundingSphere := by
      unfold infoAt
      rw [htab, getD_set_self _ _ _ _ hgl1]
    have hother : ∀ k, k ≠ gid → infoAt (addGeometry b g (-1) (-1)).1 k = infoAt b k := by
      intro k hk
      unfold infoAt
      rw [htab, getD_set_ne _ _ _ _ _ hk]
      by_cases hkl : k < b.geometryInfo.length
      · rw [getD_append_lt _ _ _ _ hkl]
      · rw [hgeq] at hk
        have hk1 : (b.geometryInfo ++
            [addInfo0 (resizeSpaceIfNeeded b (fillBounds g)) (fillBounds g)
              pos (-1) (-1)]).length ≤ k := by
          rw [List.length_append, List.length_singleton]
          omega
        rw [List.getD_eq_getElem?_getD, List.getElem?_eq_none_iff.mpr hk1,
          List.getD_eq_getElem?_getD, List.getElem?_eq_none_iff.mpr (le_of_not_lt hkl)]
    exact pairOk_newRegion b _ gid hWF (by rw [hgide]; exact hvs2)
      (fun hs => by rw [hgide]; exact his2 hs) hother hsome

/-- Witness for C3 at concrete inputs: re-adding after the deletion in the
C9 scenario reuses handle 0, and the reserved ranges of handles 0 and 1
stay disjoint across `addGeometry`, `deleteGeometry` and `setGeometryAt`. -/
theorem c3_reuse_disjointness_witness :
    (addGeometry c9s3 c9g3 (-1) (-1)).2 = Except.ok (0 : ℤ) ∧
    pairOk (addGeometry c9s3 c9g3 (-1) (-1)).1 0 1 ∧
    pairOk (deleteGeometry c9s2 0).1 0 1 ∧
    pairOk (setGeometryAt c9s2 0 c9g1).1 0 1 := by
  obtain ⟨gidN, halloc, hok, hp⟩ := c3_reuse_disjointness_amended.1 c9s3 c9g3
    (posAttr [20, 0, 0, 21, 0, 0, 22, 0, 0, 23, 0, 0])
    (by with_unfolding_all decide) (by with_unfolding_all decide)
    (by with_unfolding_all decide) (by with_unfolding_all rfl)
    (by with_unfolding_all decide)
  have havail : c9s3.availableGeometryIds = [0] := by with_unfolding_all decide
  have hg0 : gidN = 0 := by
    rcases halloc with ⟨-, hmem, -⟩ | ⟨hemp, -⟩
    · rw [havail] at hmem
      simpa using hmem
    · rw [havail] at hemp
      exact absurd hemp (by simp)
  subst hg0
  exact ⟨by exact_mod_cast hok, hp 0 1,
    c3_reuse_disjointness_amended.2.1 c9s2 0 (by with_unfolding_all decide) 0 1,
    c3_reuse_disjointness_amended.2.2 c9s2 0 c9g1 (by with_unfolding_all decide) 0 1⟩

end CadBatch
